import Mathlib

/-!
Verification of the WWVB-Clock protocol engine (wwvb_clock.ino and
wwvb_signal_simulator.pde) against its natural-language specification.

The embedding models:
* the pulse classifier of processBit (duration bands in milliseconds);
* the TimeFrame data model: the wwvbBuffer bit-field overlay on a 64-bit
  integer, as explicit shift/mask accessors (getField / setField) plus a
  structure of the named decimal-digit fields;
* the calendar incrementer incrementWwvbMinute (each C bit-field write
  wraps at the declared field width, hence the explicit mod 2^w);
* the decode-side state machine processBit with its receive buffer,
  position / marker / error counters and the 10-slot frame-error ring;
* the encode side of the simulator: the 60-symbol frame emission loop.

All durations are the low-pulse lengths in milliseconds that the decoder
measures; feeding a symbol to the accumulator means feeding that duration.
-/

namespace Wwvb

set_option maxHeartbeats 1600000

/-- Pulse symbol produced by the duration bands of processBit
(the spec calls this type PulseClass). -/
inductive Pulse where
  | Marker : Pulse
  | Zero : Pulse
  | One : Pulse
  | Invalid : Pulse
deriving DecidableEq

/-- Duration bands of processBit, wwvb_clock.ino lines 543-610:
pulses below 100 ms and at or above 900 ms are reception errors,
[100,400) is an unweighted bit, [400,700) a weighted bit,
[700,900) a frame marker. -/
def classify (pulseWidth : Nat) : Pulse :=
  if pulseWidth < 100 then Pulse.Invalid
  else if pulseWidth < 400 then Pulse.Zero
  else if pulseWidth < 700 then Pulse.One
  else if pulseWidth < 900 then Pulse.Marker
  else Pulse.Invalid

/-- One minute of WWVB content: the named decimal-digit fields of the
wwvbBuffer bit-field struct (the TimeFrame of the spec).  Every field is
a C bit-field of unsigned long long; the declared widths are MinTen:3,
MinOne:4, HourTen:2, HourOne:4, DayHun:2, DayTen:4, DayOne:4, OffSign:3,
OffVal:4, YearTen:4, YearOne:4, Dst:2, Leapsec:1, Leapyear:1. -/
structure WwvbFrame where
  minTen : Nat
  minOne : Nat
  hourTen : Nat
  hourOne : Nat
  dayHun : Nat
  dayTen : Nat
  dayOne : Nat
  offSign : Nat
  offVal : Nat
  yearTen : Nat
  yearOne : Nat
  dst : Nat
  leapsec : Nat
  leapyear : Nat
deriving DecidableEq

/-- Read a C bit-field of width w whose lowest bit is bit lo of the
64-bit buffer. -/
def getField (buf lo w : Nat) : Nat :=
  (buf >>> lo) % 2 ^ w

/-- Write a C bit-field of width w at bit lo; the stored value wraps at
the field width, exactly as a C bit-field assignment does. -/
def setField (buf lo w v : Nat) : Nat :=
  (buf / 2 ^ (lo + w)) * 2 ^ (lo + w) + (v % 2 ^ w) * 2 ^ lo + buf % 2 ^ lo

/-- Field layout of the receiver struct wwvbBuffer (wwvb_clock.ino lines
173-201).  Bit-fields of an unsigned long long are allocated from bit 0
up on avr-gcc, so with members U12:4, Frame:2, Dst:2, Leapsec:1,
Leapyear:1, U11:1, YearOne:4, U10:1, YearTen:4, U09:1, OffVal:4, U08:1,
OffSign:3, U07:2, DayOne:4, U06:1, DayTen:4, U05:1, DayHun:2, U04:3,
HourOne:4, U03:1, HourTen:2, U02:3, MinOne:4, U01:1, MinTen:3 the named
fields sit at the bit offsets used here. -/
def decodeFrame (buf : Nat) : WwvbFrame where
  minTen := getField buf 61 3
  minOne := getField buf 56 4
  hourTen := getField buf 51 2
  hourOne := getField buf 46 4
  dayHun := getField buf 41 2
  dayTen := getField buf 36 4
  dayOne := getField buf 31 4
  offSign := getField buf 26 3
  offVal := getField buf 21 4
  yearTen := getField buf 16 4
  yearOne := getField buf 11 4
  dst := getField buf 6 2
  leapsec := getField buf 8 1
  leapyear := getField buf 9 1

/-- Field layout of the simulator struct wwvbBuffer
(wwvb_signal_simulator.pde lines 61-90).  It differs from the receiver
struct: Frame is 1 bit instead of 2 and a trailing member U00:1 occupies
bit 63, so every named field sits one bit lower than in the receiver
struct.  Building the transmit buffer from a frame is the sequence of
bit-field assignments of the simulator setup(). -/
def encodeBits (f : WwvbFrame) : Nat :=
  setField (setField (setField (setField (setField (setField (setField
    (setField (setField (setField (setField (setField (setField (setField
      0 60 3 f.minTen) 55 4 f.minOne) 50 2 f.hourTen) 45 4 f.hourOne)
      40 2 f.dayHun) 35 4 f.dayTen) 30 4 f.dayOne) 25 3 f.offSign)
      20 4 f.offVal) 15 4 f.yearTen) 10 4 f.yearOne) 5 2 f.dst)
      8 1 f.leapyear) 7 1 f.leapsec

/-- incrementWwvbMinute, wwvb_clock.ino lines 752-805 (the identical
code also ends the simulator main loop).  Each ++ on a C bit-field
wraps at the declared field width, hence the explicit mod. -/
def incrementWwvbMinute (f0 : WwvbFrame) : WwvbFrame :=
  let f1 : WwvbFrame := if (f0.minOne + 1) % 16 = 10 then
      { f0 with minOne := 0, minTen := (f0.minTen + 1) % 8 }
    else { f0 with minOne := (f0.minOne + 1) % 16 }
  let f2 : WwvbFrame := if f1.minTen = 6 then
      { f1 with minTen := 0, hourOne := (f1.hourOne + 1) % 16 } else f1
  let f3 : WwvbFrame := if f2.hourOne = 10 then
      { f2 with hourOne := 0, hourTen := (f2.hourTen + 1) % 4 } else f2
  let f4 : WwvbFrame := if f3.hourTen = 2 ∧ f3.hourOne = 4 then
      { f3 with hourTen := 0, hourOne := 0, dayOne := (f3.dayOne + 1) % 16 } else f3
  let f5 : WwvbFrame := if f4.dayOne = 10 then
      { f4 with dayOne := 0, dayTen := (f4.dayTen + 1) % 16 } else f4
  let f6 : WwvbFrame := if f5.dayTen = 10 then
      { f5 with dayTen := 0, dayHun := (f5.dayHun + 1) % 4 } else f5
  let f7 : WwvbFrame := if f6.dayHun = 3 ∧ f6.dayTen = 6 ∧ f6.dayOne = 6 + f6.leapyear then
      { f6 with dayHun := 0, dayTen := 0, dayOne := 1,
                yearOne := (f6.yearOne + 1) % 16 } else f6
  let f8 : WwvbFrame := if f7.yearOne = 10 then
      { f7 with yearOne := 0, yearTen := (f7.yearTen + 1) % 16 } else f7
  if f8.yearTen = 10 then { f8 with yearTen := 0 } else f8

/-- Composite day of year of a frame. -/
def doy (f : WwvbFrame) : Nat :=
  100 * f.dayHun + 10 * f.dayTen + f.dayOne

/-- The stated ranges of the TimeFrame sub-fields together with calendar
validity of the combined values: minute digits form 00-59, hour 0-23,
day of year 1-365 (366 in a leap year), year digits 0-9 each, UT1
magnitude 0-9, leap-year flag a single bit. -/
def validFrame (f : WwvbFrame) : Prop :=
  f.minTen ≤ 5 ∧ f.minOne ≤ 9 ∧
  f.hourTen ≤ 2 ∧ f.hourOne ≤ 9 ∧ 10 * f.hourTen + f.hourOne ≤ 23 ∧
  f.dayHun ≤ 3 ∧ f.dayTen ≤ 9 ∧ f.dayOne ≤ 9 ∧
  1 ≤ doy f ∧ doy f ≤ 365 + f.leapyear ∧
  f.yearTen ≤ 9 ∧ f.yearOne ≤ 9 ∧ f.offVal ≤ 9 ∧ f.leapyear ≤ 1

instance (f : WwvbFrame) : Decidable (validFrame f) := by
  unfold validFrame
  infer_instance

/-- C3: The pulse classifier is a pure total function of the duration;
its four bands are exactly duration < 100 ms Invalid, [100, 400) Zero,
[400, 700) One, [700, 900) Marker, and at or above 900 ms Invalid
again; the characterization below makes the bands disjoint and
exhaustive over the whole of [0, infinity). -/
theorem c3_classify_bands (d : Nat) :
    (classify d = Pulse.Invalid ↔ (d < 100 ∨ 900 ≤ d)) ∧
    (classify d = Pulse.Zero ↔ (100 ≤ d ∧ d < 400)) ∧
    (classify d = Pulse.One ↔ (400 ≤ d ∧ d < 700)) ∧
    (classify d = Pulse.Marker ↔ (700 ≤ d ∧ d < 900)) := by
  unfold classify
  split_ifs <;> simp_all <;> omega

theorem ite_minTen (c : Prop) [Decidable c] (a b : WwvbFrame) :
    (if c then a else b).minTen = if c then a.minTen else b.minTen := apply_ite WwvbFrame.minTen c a b
theorem ite_minOne (c : Prop) [Decidable c] (a b : WwvbFrame) :
    (if c then a else b).minOne = if c then a.minOne else b.minOne := apply_ite WwvbFrame.minOne c a b
theorem ite_hourTen (c : Prop) [Decidable c] (a b : WwvbFrame) :
    (if c then a else b).hourTen = if c then a.hourTen else b.hourTen := apply_ite WwvbFrame.hourTen c a b
theorem ite_hourOne (c : Prop) [Decidable c] (a b : WwvbFrame) :
    (if c then a else b).hourOne = if c then a.hourOne else b.hourOne := apply_ite WwvbFrame.hourOne c a b
theorem ite_dayHun (c : Prop) [Decidable c] (a b : WwvbFrame) :
    (if c then a else b).dayHun = if c then a.dayHun else b.dayHun := apply_ite WwvbFrame.dayHun c a b
theorem ite_dayTen (c : Prop) [Decidable c] (a b : WwvbFrame) :
    (if c then a else b).dayTen = if c then a.dayTen else b.dayTen := apply_ite WwvbFrame.dayTen c a b
theorem ite_dayOne (c : Prop) [Decidable c] (a b : WwvbFrame) :
    (if c then a else b).dayOne = if c then a.dayOne else b.dayOne := apply_ite WwvbFrame.dayOne c a b
theorem ite_offSign (c : Prop) [Decidable c] (a b : WwvbFrame) :
    (if c then a else b).offSign = if c then a.offSign else b.offSign := apply_ite WwvbFrame.offSign c a b
theorem ite_offVal (c : Prop) [Decidable c] (a b : WwvbFrame) :
    (if c then a else b).offVal = if c then a.offVal else b.offVal := apply_ite WwvbFrame.offVal c a b
theorem ite_yearTen (c : Prop) [Decidable c] (a b : WwvbFrame) :
    (if c then a else b).yearTen = if c then a.yearTen else b.yearTen := apply_ite WwvbFrame.yearTen c a b
theorem ite_yearOne (c : Prop) [Decidable c] (a b : WwvbFrame) :
    (if c then a else b).yearOne = if c then a.yearOne else b.yearOne := apply_ite WwvbFrame.yearOne c a b
theorem ite_dst (c : Prop) [Decidable c] (a b : WwvbFrame) :
    (if c then a else b).dst = if c then a.dst else b.dst := apply_ite WwvbFrame.dst c a b
theorem ite_leapsec (c : Prop) [Decidable c] (a b : WwvbFrame) :
    (if c then a else b).leapsec = if c then a.leapsec else b.leapsec := apply_ite WwvbFrame.leapsec c a b
theorem ite_leapyear (c : Prop) [Decidable c] (a b : WwvbFrame) :
    (if c then a else b).leapyear = if c then a.leapyear else b.leapyear := apply_ite WwvbFrame.leapyear c a b


set_option maxHeartbeats 4000000 in
/-- C4 (amended): the range-and-calendar invariant on a TimeFrame is
preserved by the one-minute advance.  (Boundary validation alone does not
establish the invariant; see the counterexample.) -/
theorem c4_advance_preserves_invariant (f : WwvbFrame) (h : validFrame f) :
    validFrame (incrementWwvbMinute f) := by
  obtain ⟨mt, mo, ht, ho, dh, dtn, don, os, ov, yt, yo, dsf, ls, ly⟩ := f
  obtain ⟨h1, h2, h3, h4, h5, h6, h7, h8, h9, h10, h11, h12, h13, h14⟩ := h
  simp only [doy] at h9 h10
  simp only at h1 h2 h3 h4 h5 h6 h7 h8 h9 h10 h11 h12 h13 h14
  have e1 : (mo + 1) % 16 = mo + 1 := Nat.mod_eq_of_lt (by omega)
  have e2 : (mt + 1) % 8 = mt + 1 := Nat.mod_eq_of_lt (by omega)
  have e3 : (ho + 1) % 16 = ho + 1 := Nat.mod_eq_of_lt (by omega)
  have e4 : (ht + 1) % 4 = ht + 1 := Nat.mod_eq_of_lt (by omega)
  have e5 : (don + 1) % 16 = don + 1 := Nat.mod_eq_of_lt (by omega)
  have e6 : (dtn + 1) % 16 = dtn + 1 := Nat.mod_eq_of_lt (by omega)
  have e8 : (yo + 1) % 16 = yo + 1 := Nat.mod_eq_of_lt (by omega)
  have e9 : (yt + 1) % 16 = yt + 1 := Nat.mod_eq_of_lt (by omega)
  simp only [incrementWwvbMinute, validFrame, doy, ite_minTen, ite_minOne,
    ite_hourTen, ite_hourOne, ite_dayHun, ite_dayTen, ite_dayOne, ite_offSign,
    ite_offVal, ite_yearTen, ite_yearOne, ite_dst, ite_leapsec, ite_leapyear,
    ite_self, e1, e2, e3, e4, e5, e6, e8, e9]
  rcases Nat.lt_or_ge mo 9 with hmo | hmo
  · have hc1 : ¬(mo + 1 = 10) := by omega
    have hc2 : ¬(mt = 6) := by omega
    have hc3 : ¬(ho = 10) := by omega
    have hc4 : ¬(ht = 2 ∧ ho = 4) := by rintro ⟨x1, x2, x3⟩; omega
    have hc5 : ¬(don = 10) := by omega
    have hc6 : ¬(dtn = 10) := by omega
    have hc7 : ¬(dh = 3 ∧ dtn = 6 ∧ don = 6 + ly) := by rintro ⟨x1, x2, x3⟩; omega
    have hc8 : ¬(yo = 10) := by omega
    have hc9 : ¬(yt = 10) := by omega
    simp only [if_neg hc1, if_neg hc2, if_neg hc3, if_neg hc4, if_neg hc5,
      if_neg hc6, if_neg hc7, if_neg hc8, if_neg hc9]
    omega
  · have hmo9 : mo = 9 := by omega
    subst hmo9
    rcases Nat.lt_or_ge mt 5 with hmt | hmt
    · have hc2 : ¬(mt + 1 = 6) := by omega
      have hc3 : ¬(ho = 10) := by omega
      have hc4 : ¬(ht = 2 ∧ ho = 4) := by rintro ⟨x1, x2, x3⟩; omega
      have hc5 : ¬(don = 10) := by omega
      have hc6 : ¬(dtn = 10) := by omega
      have hc7 : ¬(dh = 3 ∧ dtn = 6 ∧ don = 6 + ly) := by rintro ⟨x1, x2, x3⟩; omega
      have hc8 : ¬(yo = 10) := by omega
      have hc9 : ¬(yt = 10) := by omega
      norm_num [if_neg hc2, if_neg hc3, if_neg hc4, if_neg hc5,
        if_neg hc6, if_neg hc7, if_neg hc8, if_neg hc9]
      omega
    · have hmt5 : mt = 5 := by omega
      subst hmt5
      rcases Nat.lt_or_ge ho 9 with hho | hho
      · by_cases hhr : ht = 2 ∧ ho = 3
        · obtain ⟨hht2, hho3⟩ := hhr
          subst hht2 hho3
          rcases Nat.lt_or_ge don 9 with hdon | hdon
          · by_cases htr : dh = 3 ∧ dtn = 6 ∧ don + 1 = 6 + ly
            · rcases Nat.lt_or_ge yo 9 with hyo | hyo
              · have hc5 : ¬(don + 1 = 10) := by omega
                have hc6 : ¬(dtn = 10) := by omega
                have hc8 : ¬(yo + 1 = 10) := by omega
                have hc9 : ¬(yt = 10) := by omega
                norm_num [if_neg hc5, if_neg hc6, if_pos htr, if_neg hc8, if_neg hc9]
                omega
              · have hyo9 : yo = 9 := by omega
                subst hyo9
                rcases Nat.lt_or_ge yt 9 with hyt | hyt
                · have hc5 : ¬(don + 1 = 10) := by omega
                  have hc6 : ¬(dtn = 10) := by omega
                  have hc9 : ¬(yt + 1 = 10) := by omega
                  norm_num [if_neg hc5, if_neg hc6, if_pos htr, if_neg hc9]
                  omega
                · have hyt9 : yt = 9 := by omega
                  subst hyt9
                  have hc5 : ¬(don + 1 = 10) := by omega
                  have hc6 : ¬(dtn = 10) := by omega
                  norm_num [if_neg hc5, if_neg hc6, if_pos htr]
                  omega
            · have hc5 : ¬(don + 1 = 10) := by omega
              have hc6 : ¬(dtn = 10) := by omega
              have hc8 : ¬(yo = 10) := by omega
              have hc9 : ¬(yt = 10) := by omega
              norm_num [if_neg hc5, if_neg hc6, if_neg htr, if_neg hc8, if_neg hc9]
              omega
          · have hdon9 : don = 9 := by omega
            subst hdon9
            rcases Nat.lt_or_ge dtn 9 with hdtn | hdtn
            · have hc6 : ¬(dtn + 1 = 10) := by omega
              have hc7 : ¬(dh = 3 ∧ dtn + 1 = 6 ∧ (0 : Nat) = 6 + ly) := by omega
              have hc8 : ¬(yo = 10) := by omega
              have hc9 : ¬(yt = 10) := by omega
              norm_num [if_neg hc6, if_neg hc7, if_neg hc8, if_neg hc9]
              omega
            · have hdtn9 : dtn = 9 := by omega
              subst hdtn9
              have hc8 : ¬(yo = 10) := by omega
              have hc9 : ¬(yt = 10) := by omega
              norm_num [if_neg hc8, if_neg hc9]
              omega
        · have hc3 : ¬(ho + 1 = 10) := by omega
          have hc4 : ¬(ht = 2 ∧ ho + 1 = 4) := by
            intro hk
            exact hhr ⟨hk.1, by omega⟩
          have hc5 : ¬(don = 10) := by omega
          have hc6 : ¬(dtn = 10) := by omega
          have hc7 : ¬(dh = 3 ∧ dtn = 6 ∧ don = 6 + ly) := by rintro ⟨x1, x2, x3⟩; omega
          have hc8 : ¬(yo = 10) := by omega
          have hc9 : ¬(yt = 10) := by omega
          norm_num [if_neg hc3, if_neg hc4, if_neg hc5, if_neg hc6, if_neg hc7,
            if_neg hc8, if_neg hc9]
          omega
      · have hho9 : ho = 9 := by omega
        subst hho9
        have hc4 : ¬(ht + 1 = 2 ∧ (0 : Nat) = 4) := by omega
        have hc5 : ¬(don = 10) := by omega
        have hc6 : ¬(dtn = 10) := by omega
        have hc7 : ¬(dh = 3 ∧ dtn = 6 ∧ don = 6 + ly) := by rintro ⟨x1, x2, x3⟩; omega
        have hc8 : ¬(yo = 10) := by omega
        have hc9 : ¬(yt = 10) := by omega
        norm_num [if_neg hc4, if_neg hc5, if_neg hc6, if_neg hc7,
          if_neg hc8, if_neg hc9]
        omega


/-- C4 witness: a concrete in-range frame stays in range after the
advance. -/
theorem c4_advance_preserves_invariant_witness :
    validFrame ⟨0, 0, 0, 0, 0, 0, 1, 5, 3, 0, 5, 0, 0, 0⟩ ∧
    validFrame (incrementWwvbMinute ⟨0, 0, 0, 0, 0, 0, 1, 5, 3, 0, 5, 0, 0, 0⟩) :=
  ⟨by decide, c4_advance_preserves_invariant ⟨0, 0, 0, 0, 0, 0, 1, 5, 3, 0, 5, 0, 0, 0⟩ (by decide)⟩

/-- C5 counterexample: at 23:59 on day-of-year 365 of a non-leap year
(dayHundreds 3, dayTens 6, dayOnes 5) the advance yields hour 00:00 but
day-of-year 1, not day-of-year 365 + 1 = 366: the claim that the advance
of any frame at hour 23, minute 59 increments the day-of-year by 1 fails
at this input. -/
theorem c5_counterexample :
    (incrementWwvbMinute ⟨5, 9, 2, 3, 3, 6, 5, 5, 3, 1, 0, 3, 0, 0⟩).hourTen = 0 ∧
    (incrementWwvbMinute ⟨5, 9, 2, 3, 3, 6, 5, 5, 3, 1, 0, 3, 0, 0⟩).hourOne = 0 ∧
    (incrementWwvbMinute ⟨5, 9, 2, 3, 3, 6, 5, 5, 3, 1, 0, 3, 0, 0⟩).minTen = 0 ∧
    (incrementWwvbMinute ⟨5, 9, 2, 3, 3, 6, 5, 5, 3, 1, 0, 3, 0, 0⟩).minOne = 0 ∧
    doy ⟨5, 9, 2, 3, 3, 6, 5, 5, 3, 1, 0, 3, 0, 0⟩ = 365 ∧
    ¬ doy (incrementWwvbMinute ⟨5, 9, 2, 3, 3, 6, 5, 5, 3, 1, 0, 3, 0, 0⟩)
        = doy ⟨5, 9, 2, 3, 3, 6, 5, 5, 3, 1, 0, 3, 0, 0⟩ + 1 := by
  decide

set_option maxHeartbeats 1600000 in
/-- C5 (amended): advancing a TimeFrame at hour 23 (hourTens 2, hourOnes
3) and minute 59 (minuteTens 5, minuteOnes 9) yields hour 00 and minute
00 - all four BCD digits zero - through the ripple carries, and the
day-of-year is incremented by 1 provided the frame is not on the last
day of its year (day-of-year 365, or 366 when the leap-year flag is
set), in which case the year-rollover rule resets the day to 1 instead;
the year digits are untouched. -/
theorem c5_advance_midnight (f : WwvbFrame)
    (hmt : f.minTen = 5) (hmo : f.minOne = 9) (hht : f.hourTen = 2) (hho : f.hourOne = 3)
    (hdt : f.dayTen ≤ 9) (hdo : f.dayOne ≤ 9) (hl : f.leapyear ≤ 1)
    (hyt : f.yearTen ≤ 9) (hyo : f.yearOne ≤ 9)
    (hd : doy f < 365 + f.leapyear) :
    (incrementWwvbMinute f).minTen = 0 ∧ (incrementWwvbMinute f).minOne = 0 ∧
    (incrementWwvbMinute f).hourTen = 0 ∧ (incrementWwvbMinute f).hourOne = 0 ∧
    doy (incrementWwvbMinute f) = doy f + 1 ∧
    (incrementWwvbMinute f).yearTen = f.yearTen ∧
    (incrementWwvbMinute f).yearOne = f.yearOne ∧
    (incrementWwvbMinute f).leapyear = f.leapyear := by
  obtain ⟨mt, mo, ht, ho, dh, dtn, don, os, ov, yt, yo, dsf, ls, ly⟩ := f
  simp only [doy] at hd ⊢
  simp only at hmt hmo hht hho hdt hdo hl hyt hyo
  subst hmt hmo hht hho
  simp only [incrementWwvbMinute]
  norm_num
  split_ifs <;> simp_all <;> omega

/-- C5 witness: the amended statement at 23:59 of day-of-year 100. -/
theorem c5_advance_midnight_witness :
    (incrementWwvbMinute ⟨5, 9, 2, 3, 1, 0, 0, 5, 3, 1, 0, 3, 0, 0⟩).minTen = 0 ∧
    (incrementWwvbMinute ⟨5, 9, 2, 3, 1, 0, 0, 5, 3, 1, 0, 3, 0, 0⟩).minOne = 0 ∧
    (incrementWwvbMinute ⟨5, 9, 2, 3, 1, 0, 0, 5, 3, 1, 0, 3, 0, 0⟩).hourTen = 0 ∧
    (incrementWwvbMinute ⟨5, 9, 2, 3, 1, 0, 0, 5, 3, 1, 0, 3, 0, 0⟩).hourOne = 0 ∧
    doy (incrementWwvbMinute ⟨5, 9, 2, 3, 1, 0, 0, 5, 3, 1, 0, 3, 0, 0⟩)
      = doy ⟨5, 9, 2, 3, 1, 0, 0, 5, 3, 1, 0, 3, 0, 0⟩ + 1 ∧
    (incrementWwvbMinute ⟨5, 9, 2, 3, 1, 0, 0, 5, 3, 1, 0, 3, 0, 0⟩).yearTen = 1 ∧
    (incrementWwvbMinute ⟨5, 9, 2, 3, 1, 0, 0, 5, 3, 1, 0, 3, 0, 0⟩).yearOne = 0 ∧
    (incrementWwvbMinute ⟨5, 9, 2, 3, 1, 0, 0, 5, 3, 1, 0, 3, 0, 0⟩).leapyear = 0 :=
  c5_advance_midnight ⟨5, 9, 2, 3, 1, 0, 0, 5, 3, 1, 0, 3, 0, 0⟩
    rfl rfl rfl rfl (by decide) (by decide) (by decide) (by decide) (by decide) (by decide)

set_option maxHeartbeats 1600000 in
/-- C6: when the one-minute advance carries past 23:59 of the last day
of the year - day-of-year digits (3,6,5) with the leap-year flag clear,
or (3,6,6) with it set - the day-of-year resets to 1 and the two-digit
year advances by one with the digit carries of the code: yearOnes 9 to 0
carries into yearTens, and yearTens 9 to 0 wraps with no further carry,
so the combined year moves to (year + 1) mod 100. -/
theorem c6_year_rollover (f : WwvbFrame)
    (hmt : f.minTen = 5) (hmo : f.minOne = 9) (hht : f.hourTen = 2) (hho : f.hourOne = 3)
    (hdh : f.dayHun = 3) (hdt : f.dayTen = 6) (hdo : f.dayOne = 5 + f.leapyear)
    (hl : f.leapyear ≤ 1) (hyt : f.yearTen ≤ 9) (hyo : f.yearOne ≤ 9) :
    (incrementWwvbMinute f).dayHun = 0 ∧ (incrementWwvbMinute f).dayTen = 0 ∧
    (incrementWwvbMinute f).dayOne = 1 ∧
    10 * (incrementWwvbMinute f).yearTen + (incrementWwvbMinute f).yearOne
      = (10 * f.yearTen + f.yearOne + 1) % 100 ∧
    (incrementWwvbMinute f).minTen = 0 ∧ (incrementWwvbMinute f).minOne = 0 ∧
    (incrementWwvbMinute f).hourTen = 0 ∧ (incrementWwvbMinute f).hourOne = 0 := by
  obtain ⟨mt, mo, ht, ho, dh, dtn, don, os, ov, yt, yo, dsf, ls, ly⟩ := f
  simp only at hmt hmo hht hho hdh hdt hdo hl hyt hyo
  subst hmt hmo hht hho hdh hdt hdo
  interval_cases ly <;>
    (simp only [incrementWwvbMinute]; norm_num; split_ifs <;> simp_all <;> omega)

/-- C6 witness: the year rollover at 23:59 of day 366 of a leap year
with year digits 9,9 wrapping to 0,0. -/
theorem c6_year_rollover_witness :
    (incrementWwvbMinute ⟨5, 9, 2, 3, 3, 6, 6, 5, 3, 9, 9, 3, 0, 1⟩).dayHun = 0 ∧
    (incrementWwvbMinute ⟨5, 9, 2, 3, 3, 6, 6, 5, 3, 9, 9, 3, 0, 1⟩).dayTen = 0 ∧
    (incrementWwvbMinute ⟨5, 9, 2, 3, 3, 6, 6, 5, 3, 9, 9, 3, 0, 1⟩).dayOne = 1 ∧
    10 * (incrementWwvbMinute ⟨5, 9, 2, 3, 3, 6, 6, 5, 3, 9, 9, 3, 0, 1⟩).yearTen
      + (incrementWwvbMinute ⟨5, 9, 2, 3, 3, 6, 6, 5, 3, 9, 9, 3, 0, 1⟩).yearOne
      = (10 * 9 + 9 + 1) % 100 ∧
    (incrementWwvbMinute ⟨5, 9, 2, 3, 3, 6, 6, 5, 3, 9, 9, 3, 0, 1⟩).minTen = 0 ∧
    (incrementWwvbMinute ⟨5, 9, 2, 3, 3, 6, 6, 5, 3, 9, 9, 3, 0, 1⟩).minOne = 0 ∧
    (incrementWwvbMinute ⟨5, 9, 2, 3, 3, 6, 6, 5, 3, 9, 9, 3, 0, 1⟩).hourTen = 0 ∧
    (incrementWwvbMinute ⟨5, 9, 2, 3, 3, 6, 6, 5, 3, 9, 9, 3, 0, 1⟩).hourOne = 0 :=
  c6_year_rollover ⟨5, 9, 2, 3, 3, 6, 6, 5, 3, 9, 9, 3, 0, 1⟩
    rfl rfl rfl rfl rfl rfl (by decide) (by decide) (by decide) (by decide)



/-- Decoder state: the free-standing globals of wwvb_clock.ino that
processBit reads and writes: the previous-pulse-was-marker flag wasMark,
the marker counter framePosition, the position counter bitPosition, the
invalid-pulse counter bitError, the 64-bit receive buffer, the 64-bit
buffer of the last accepted frame, and the 10-slot frame-error ring
(int errors[10]) with its loop-around index errIdx. -/
structure ClockState where
  wasMark : Bool
  framePosition : Nat
  bitPosition : Nat
  bitError : Nat
  receiveBuffer : Nat
  lastFrameBuffer : Nat
  errors : List Int
  errIdx : Nat
deriving DecidableEq

/-- Initial values of the globals, wwvb_clock.ino lines 141-150 and
setup() lines 246-247: counters cleared, bitPosition starting at 1, the
error ring full of failures. -/
def initState : ClockState where
  wasMark := false
  framePosition := 0
  bitPosition := 1
  bitError := 0
  receiveBuffer := 0
  lastFrameBuffer := 0
  errors := [1, 1, 1, 1, 1, 1, 1, 1, 1, 1]
  errIdx := 0

/-- buffer(int bit), lines 710-739: a marker code (-1) increments
framePosition; codes below 0 are stored as bit value 0; the bit value
lands at bit 64 - bitPosition of the receive buffer (first received bit
highest) and bitPosition advances. -/
def bufferBit (s : ClockState) (bit : Int) : ClockState :=
  let s1 : ClockState :=
    if bit = -1 then { s with framePosition := s.framePosition + 1 } else s
  let b : Nat := if bit < 0 then 0 else bit.toNat
  { s1 with receiveBuffer := s1.receiveBuffer ||| (b <<< (64 - s1.bitPosition)),
            bitPosition := s1.bitPosition + 1 }

/-- logFrameError(boolean err), lines 638-648: overwrite the current
ring slot with 1 for a failure, 0 for a success, then advance the
loop-around index, wrapping at 10. -/
def logFrameError (s : ClockState) (err : Bool) : ClockState :=
  { s with errors := s.errors.set s.errIdx (if err then 1 else 0),
           errIdx := if s.errIdx + 1 ≥ 10 then 0 else s.errIdx + 1 }

/-- sumFrameErrors(), lines 659-668: the local accumulator rv is
declared without an initializer, so the function returns the sum of the
ring slots on top of an indeterminate start value; that start value is
made explicit as the first argument. -/
def sumFrameErrors (rv : Int) (errors : List Int) : Int :=
  errors.foldl (fun a b => a + b) rv

/-- processBit(), lines 531-629, processing one received pulse of the
given low-duration in milliseconds.  The four duration bands are
dispatched through classify (the two Invalid branches of the source -
too short and too long - have identical bodies).  A marker following a
marker is the frame boundary: the buffer is accepted exactly when
framePosition = 6, bitPosition = 60 and bitError = 0, the accepted
buffer replaces lastFrameBuffer, the outcome is logged, and the
counters, flag and receive buffer reset; afterwards a frameError or a
bitPosition beyond 60 forces a logged failure and the same reset. -/
def processBit (s : ClockState) (pulseWidth : Nat) : ClockState :=
  let core : ClockState × Bool :=
    match classify pulseWidth with
    | Pulse.Invalid =>
        let s1 : ClockState := bufferBit s (-2)
        ({ s1 with bitError := s1.bitError + 1, wasMark := false }, false)
    | Pulse.Zero => ({ bufferBit s 0 with wasMark := false }, false)
    | Pulse.One => ({ bufferBit s 1 with wasMark := false }, false)
    | Pulse.Marker =>
        if s.wasMark then
          if s.framePosition = 6 ∧ s.bitPosition = 60 ∧ s.bitError = 0 then
            let s1 : ClockState :=
              logFrameError { s with lastFrameBuffer := s.receiveBuffer } false
            ({ s1 with framePosition := 0, bitPosition := 1, wasMark := false,
                       bitError := 0, receiveBuffer := 0 }, false)
          else
            ({ s with framePosition := 0, bitPosition := 1, wasMark := false,
                      bitError := 0, receiveBuffer := 0 }, true)
        else ({ bufferBit s (-1) with wasMark := true }, false)
  let s2 : ClockState := core.1
  if core.2 = true ∨ s2.bitPosition > 60 then
    let s3 : ClockState := logFrameError s2 true
    { s3 with framePosition := 0, bitPosition := 1, wasMark := false,
              bitError := 0, receiveBuffer := 0 }
  else s2

theorem processBit_data (s : ClockState) (c : Nat) (hc : c ≤ 1)
    (hbp : s.bitPosition ≤ 59) :
    processBit s (200 + 300 * c) =
      { s with receiveBuffer := s.receiveBuffer ||| (c <<< (64 - s.bitPosition)),
               bitPosition := s.bitPosition + 1, wasMark := false } := by
  interval_cases c <;>
    simp [processBit, bufferBit, classify] <;> omega

theorem processBit_invalid (s : ClockState) (w : Nat)
    (hw : classify w = Pulse.Invalid) (hbp : s.bitPosition ≤ 59) :
    processBit s w =
      { s with bitError := s.bitError + 1,
               bitPosition := s.bitPosition + 1, wasMark := false } := by
  simp only [processBit, bufferBit, hw]
  simp [Nat.zero_shiftLeft, Nat.or_zero]
  omega

theorem processBit_markReg (s : ClockState) (w : Nat)
    (hw : classify w = Pulse.Marker) (hm : s.wasMark = false)
    (hbp : s.bitPosition ≤ 59) :
    processBit s w =
      { s with framePosition := s.framePosition + 1,
               bitPosition := s.bitPosition + 1, wasMark := true } := by
  simp only [processBit, bufferBit, hw, hm]
  simp [Nat.zero_shiftLeft, Nat.or_zero]
  omega

theorem processBit_zero (s : ClockState) (w : Nat)
    (hw : classify w = Pulse.Zero) (hbp : s.bitPosition ≤ 59) :
    processBit s w =
      { s with bitPosition := s.bitPosition + 1, wasMark := false } := by
  simp only [processBit, bufferBit, hw]
  simp [Nat.zero_shiftLeft, Nat.or_zero]
  omega

theorem processBit_one (s : ClockState) (w : Nat)
    (hw : classify w = Pulse.One) (hbp : s.bitPosition ≤ 59) :
    processBit s w =
      { s with receiveBuffer := s.receiveBuffer ||| (1 <<< (64 - s.bitPosition)),
               bitPosition := s.bitPosition + 1, wasMark := false } := by
  simp only [processBit, bufferBit, hw]
  simp
  omega

theorem processBit_boundary (s : ClockState) (w : Nat)
    (hw : classify w = Pulse.Marker) (hm : s.wasMark = true) :
    processBit s w =
      if s.framePosition = 6 ∧ s.bitPosition = 60 ∧ s.bitError = 0 then
        { wasMark := false, framePosition := 0, bitPosition := 1, bitError := 0,
          receiveBuffer := 0, lastFrameBuffer := s.receiveBuffer,
          errors := s.errors.set s.errIdx 0,
          errIdx := if s.errIdx + 1 ≥ 10 then 0 else s.errIdx + 1 }
      else
        { wasMark := false, framePosition := 0, bitPosition := 1, bitError := 0,
          receiveBuffer := 0, lastFrameBuffer := s.lastFrameBuffer,
          errors := s.errors.set s.errIdx 1,
          errIdx := if s.errIdx + 1 ≥ 10 then 0 else s.errIdx + 1 } := by
  simp only [processBit, logFrameError, hw, hm]
  split_ifs <;> simp_all

theorem processBit_overflow (s : ClockState) (w : Nat)
    (hnb : classify w = Pulse.Marker → s.wasMark = false)
    (hbp : 60 ≤ s.bitPosition) :
    processBit s w =
      { wasMark := false, framePosition := 0, bitPosition := 1, bitError := 0,
        receiveBuffer := 0, lastFrameBuffer := s.lastFrameBuffer,
        errors := s.errors.set s.errIdx 1,
        errIdx := if s.errIdx + 1 ≥ 10 then 0 else s.errIdx + 1 } := by
  rcases hcl : classify w with hM | hZ | hO | hI <;>
    simp_all [processBit, bufferBit, logFrameError] <;> omega



/-- C2: at a frame boundary (a Marker pulse whose previous pulse was
also a Marker) the buffer is accepted iff framePosition = 6 (the
expected internal marker count of this layout), bitPosition = 60 and
bitError = 0.  On acceptance the receive buffer replaces the held
lastFrameBuffer (the held decoded TimeFrame becomes the decode of the
received bits) and a success (0) is logged in the quality ring; on
rejection a failure (1) is logged and lastFrameBuffer is unchanged; in
both cases the marker and position counters, the error counter, the
previous-was-marker flag and the receive buffer are reset. -/
theorem c2_boundary (s : ClockState) (w : Nat)
    (hm : s.wasMark = true) (hw : classify w = Pulse.Marker) :
    ((s.framePosition = 6 ∧ s.bitPosition = 60 ∧ s.bitError = 0) →
      decodeFrame (processBit s w).lastFrameBuffer = decodeFrame s.receiveBuffer ∧
      (processBit s w).lastFrameBuffer = s.receiveBuffer ∧
      (processBit s w).errors = s.errors.set s.errIdx 0) ∧
    (¬(s.framePosition = 6 ∧ s.bitPosition = 60 ∧ s.bitError = 0) →
      (processBit s w).lastFrameBuffer = s.lastFrameBuffer ∧
      (processBit s w).errors = s.errors.set s.errIdx 1) ∧
    (processBit s w).framePosition = 0 ∧
    (processBit s w).bitPosition = 1 ∧
    (processBit s w).bitError = 0 ∧
    (processBit s w).wasMark = false ∧
    (processBit s w).receiveBuffer = 0 ∧
    (processBit s w).errIdx = (if s.errIdx + 1 ≥ 10 then 0 else s.errIdx + 1) := by
  rw [processBit_boundary s w hw hm]
  split_ifs with hv <;> simp_all

/-- C2 witness: a concrete accepted boundary with its resets. -/
theorem c2_boundary_witness :
    ((6 = 6 ∧ 60 = 60 ∧ 0 = 0) →
      decodeFrame (processBit ⟨true, 6, 60, 0, 77, 3, [1,1,1,1,1,1,1,1,1,1], 2⟩ 800).lastFrameBuffer
        = decodeFrame 77 ∧
      (processBit ⟨true, 6, 60, 0, 77, 3, [1,1,1,1,1,1,1,1,1,1], 2⟩ 800).lastFrameBuffer = 77 ∧
      (processBit ⟨true, 6, 60, 0, 77, 3, [1,1,1,1,1,1,1,1,1,1], 2⟩ 800).errors
        = [1,1,1,1,1,1,1,1,1,1].set 2 0) ∧
    (¬(6 = 6 ∧ 60 = 60 ∧ 0 = 0) →
      (processBit ⟨true, 6, 60, 0, 77, 3, [1,1,1,1,1,1,1,1,1,1], 2⟩ 800).lastFrameBuffer = 3 ∧
      (processBit ⟨true, 6, 60, 0, 77, 3, [1,1,1,1,1,1,1,1,1,1], 2⟩ 800).errors
        = [1,1,1,1,1,1,1,1,1,1].set 2 1) ∧
    (processBit ⟨true, 6, 60, 0, 77, 3, [1,1,1,1,1,1,1,1,1,1], 2⟩ 800).framePosition = 0 ∧
    (processBit ⟨true, 6, 60, 0, 77, 3, [1,1,1,1,1,1,1,1,1,1], 2⟩ 800).bitPosition = 1 ∧
    (processBit ⟨true, 6, 60, 0, 77, 3, [1,1,1,1,1,1,1,1,1,1], 2⟩ 800).bitError = 0 ∧
    (processBit ⟨true, 6, 60, 0, 77, 3, [1,1,1,1,1,1,1,1,1,1], 2⟩ 800).wasMark = false ∧
    (processBit ⟨true, 6, 60, 0, 77, 3, [1,1,1,1,1,1,1,1,1,1], 2⟩ 800).receiveBuffer = 0 ∧
    (processBit ⟨true, 6, 60, 0, 77, 3, [1,1,1,1,1,1,1,1,1,1], 2⟩ 800).errIdx
      = (if 2 + 1 ≥ 10 then 0 else 2 + 1) :=
  c2_boundary ⟨true, 6, 60, 0, 77, 3, [1,1,1,1,1,1,1,1,1,1], 2⟩ 800 rfl (by decide)

/-- C8: an Invalid-duration pulse processed mid-frame (position counter
at most 59) does not abort the in-progress frame: it increments the
error counter, advances the position, stores a zero placeholder (the
receive buffer value is unchanged) and clears the previous-was-marker
flag, leaving the held frame, the marker count and the quality ring
untouched.  The error counter never decreases on a step that is neither
a frame boundary nor an overflow reset, and a boundary reached with a
nonzero error counter takes the rejection path: the held frame stays
and a failure is logged. -/
theorem c8_invalid_pulse :
    (∀ (s : ClockState) (w : Nat), classify w = Pulse.Invalid →
      s.bitPosition ≤ 59 →
      (processBit s w).bitError = s.bitError + 1 ∧
      (processBit s w).bitPosition = s.bitPosition + 1 ∧
      (processBit s w).wasMark = false ∧
      (processBit s w).receiveBuffer = s.receiveBuffer ∧
      (processBit s w).framePosition = s.framePosition ∧
      (processBit s w).lastFrameBuffer = s.lastFrameBuffer ∧
      (processBit s w).errors = s.errors) ∧
    (∀ (s : ClockState) (w : Nat),
      (classify w = Pulse.Marker → s.wasMark = false) →
      s.bitPosition ≤ 59 →
      s.bitError ≤ (processBit s w).bitError) ∧
    (∀ (s : ClockState) (w : Nat), classify w = Pulse.Marker →
      s.wasMark = true → 0 < s.bitError →
      (processBit s w).lastFrameBuffer = s.lastFrameBuffer ∧
      (processBit s w).errors = s.errors.set s.errIdx 1) := by
  refine ⟨?_, ?_, ?_⟩
  · intro s w hw hbp
    rw [processBit_invalid s w hw hbp]
    simp
  · intro s w hnb hbp
    rcases hcl : classify w with _ | _ | _ | _
    · rw [processBit_markReg s w hcl (hnb hcl) hbp]
    · rw [processBit_zero s w hcl hbp]
    · rw [processBit_one s w hcl hbp]
    · rw [processBit_invalid s w hcl hbp]
      simp
  · intro s w hw hm he
    rw [processBit_boundary s w hw hm]
    rw [if_neg (by rintro ⟨x1, x2, x3⟩; omega)]
    exact ⟨rfl, rfl⟩

/-- C8 witness: concrete instances of the three parts - an Invalid 50 ms
pulse mid-frame, error-count monotonicity on a 200 ms pulse, and a
rejected boundary after one error. -/
theorem c8_invalid_pulse_witness :
    ((processBit ⟨false, 2, 25, 0, 5, 9, [1,1,1,1,1,1,1,1,1,1], 0⟩ 50).bitError = 0 + 1 ∧
      (processBit ⟨false, 2, 25, 0, 5, 9, [1,1,1,1,1,1,1,1,1,1], 0⟩ 50).bitPosition = 25 + 1 ∧
      (processBit ⟨false, 2, 25, 0, 5, 9, [1,1,1,1,1,1,1,1,1,1], 0⟩ 50).wasMark = false ∧
      (processBit ⟨false, 2, 25, 0, 5, 9, [1,1,1,1,1,1,1,1,1,1], 0⟩ 50).receiveBuffer = 5 ∧
      (processBit ⟨false, 2, 25, 0, 5, 9, [1,1,1,1,1,1,1,1,1,1], 0⟩ 50).framePosition = 2 ∧
      (processBit ⟨false, 2, 25, 0, 5, 9, [1,1,1,1,1,1,1,1,1,1], 0⟩ 50).lastFrameBuffer = 9 ∧
      (processBit ⟨false, 2, 25, 0, 5, 9, [1,1,1,1,1,1,1,1,1,1], 0⟩ 50).errors
        = [1,1,1,1,1,1,1,1,1,1]) ∧
    (1 ≤ (processBit ⟨false, 2, 26, 1, 5, 9, [1,1,1,1,1,1,1,1,1,1], 0⟩ 200).bitError) ∧
    ((processBit ⟨true, 6, 60, 1, 5, 9, [1,1,1,1,1,1,1,1,1,1], 0⟩ 800).lastFrameBuffer = 9 ∧
      (processBit ⟨true, 6, 60, 1, 5, 9, [1,1,1,1,1,1,1,1,1,1], 0⟩ 800).errors
        = [1,1,1,1,1,1,1,1,1,1].set 0 1) :=
  ⟨c8_invalid_pulse.1 ⟨false, 2, 25, 0, 5, 9, [1,1,1,1,1,1,1,1,1,1], 0⟩ 50 (by decide) (by decide),
   c8_invalid_pulse.2.1 ⟨false, 2, 26, 1, 5, 9, [1,1,1,1,1,1,1,1,1,1], 0⟩ 200
     (by intro h; cases h) (by decide),
   c8_invalid_pulse.2.2 ⟨true, 6, 60, 1, 5, 9, [1,1,1,1,1,1,1,1,1,1], 0⟩ 800
     (by decide) rfl (by decide)⟩

/-- C9: after processing any pulse from any state the position counter
is between 1 and 60; and when the position counter has reached 60 and
the pulse is not a frame boundary (not a Marker following a Marker),
buffering would push the position past 60, so the accumulator logs a
failure (1) in the quality ring and fully resets position, marker
count, error count, previous-was-marker flag and receive buffer, with
the held frame unchanged - exactly the shape of a frame validation
failure. -/
theorem c9_overflow_guard :
    (∀ (s : ClockState) (w : Nat),
      1 ≤ (processBit s w).bitPosition ∧ (processBit s w).bitPosition ≤ 60) ∧
    (∀ (s : ClockState) (w : Nat),
      (classify w = Pulse.Marker → s.wasMark = false) → 60 ≤ s.bitPosition →
      processBit s w =
        { wasMark := false, framePosition := 0, bitPosition := 1, bitError := 0,
          receiveBuffer := 0, lastFrameBuffer := s.lastFrameBuffer,
          errors := s.errors.set s.errIdx 1,
          errIdx := if s.errIdx + 1 ≥ 10 then 0 else s.errIdx + 1 }) := by
  constructor
  · intro s w
    rcases Nat.lt_or_ge s.bitPosition 60 with hbp | hbp
    · have hbp59 : s.bitPosition ≤ 59 := by omega
      rcases hcl : classify w with _ | _ | _ | _
      · rcases hwm : s.wasMark with _ | _
        · rw [processBit_markReg s w hcl hwm hbp59]
          simp
          omega
        · rw [processBit_boundary s w hcl hwm]
          split_ifs <;> simp
      · rw [processBit_zero s w hcl hbp59]
        simp
        omega
      · rw [processBit_one s w hcl hbp59]
        simp
        omega
      · rw [processBit_invalid s w hcl hbp59]
        simp
        omega
    · rcases hcl : classify w with _ | _ | _ | _
      · rcases hwm : s.wasMark with _ | _
        · rw [processBit_overflow s w (fun _ => hwm) hbp]
          simp
        · rw [processBit_boundary s w hcl hwm]
          split_ifs <;> simp
      · rw [processBit_overflow s w (fun h => by rw [hcl] at h; cases h) hbp]
        simp
      · rw [processBit_overflow s w (fun h => by rw [hcl] at h; cases h) hbp]
        simp
      · rw [processBit_overflow s w (fun h => by rw [hcl] at h; cases h) hbp]
        simp
  · intro s w hnb hbp
    exact processBit_overflow s w hnb hbp

/-- C9 witness: position bounds after a step, and the concrete overflow
reset on a 200 ms pulse at position 60. -/
theorem c9_overflow_guard_witness :
    (1 ≤ (processBit ⟨false, 3, 60, 0, 5, 9, [1,1,1,1,1,1,1,1,1,1], 4⟩ 200).bitPosition ∧
      (processBit ⟨false, 3, 60, 0, 5, 9, [1,1,1,1,1,1,1,1,1,1], 4⟩ 200).bitPosition ≤ 60) ∧
    (processBit ⟨false, 3, 60, 0, 5, 9, [1,1,1,1,1,1,1,1,1,1], 4⟩ 200 =
      { wasMark := false, framePosition := 0, bitPosition := 1, bitError := 0,
        receiveBuffer := 0, lastFrameBuffer := 9,
        errors := [1,1,1,1,1,1,1,1,1,1].set 4 1,
        errIdx := if 4 + 1 ≥ 10 then 0 else 4 + 1 }) :=
  ⟨c9_overflow_guard.1 ⟨false, 3, 60, 0, 5, 9, [1,1,1,1,1,1,1,1,1,1], 4⟩ 200,
   c9_overflow_guard.2 ⟨false, 3, 60, 0, 5, 9, [1,1,1,1,1,1,1,1,1,1], 4⟩ 200
     (by intro h; cases h) (by decide)⟩



/-- The 60-symbol emission loop of the simulator (wwvb_signal_simulator.pde
lines 147-185): for bit index i = 63 down to 4, i.e. position = 63 - i
from 0 to 59, a Marker is sent at position 0 and at every position with
(position + 1) % 10 = 0, and elsewhere the bit of the transmit buffer at
index 63 - position is sent as a weighted (One, 500 ms low) or
unweighted (Zero, 200 ms low) pulse; a Marker is 800 ms low.  The list
holds the low-durations the receiver measures. -/
def encodeWidths (timeBits : Nat) : List Nat :=
  (List.range 60).map (fun position =>
    if position = 0 ∨ (position + 1) % 10 = 0 then 800
    else if timeBits &&& (1 <<< (63 - position)) ≠ 0 then 500 else 200)

/-- C7 evaluation: after ten consecutive failure outcomes every ring
slot is 1, so with a zero-initialized accumulator score would be 10 and
one subsequent success would make it 9, exactly as claimed - but the
accumulator rv of sumFrameErrors is an uninitialized C local, so any
nonzero junk start (here 1) shifts the returned score to 11 and 10. -/
theorem c7_sum_uninitialized :
    (((List.replicate 10 true).foldl logFrameError initState).errors
      = List.replicate 10 1) ∧
    sumFrameErrors 0 (((List.replicate 10 true).foldl logFrameError initState).errors) = 10 ∧
    sumFrameErrors 0 ((logFrameError ((List.replicate 10 true).foldl logFrameError initState)
      false).errors) = 9 ∧
    sumFrameErrors 1 (((List.replicate 10 true).foldl logFrameError initState).errors) = 11 ∧
    sumFrameErrors 1 ((logFrameError ((List.replicate 10 true).foldl logFrameError initState)
      false).errors) = 10 := by
  decide

/-- C10 evaluation: at startup every one of the 10 ring slots holds a
failure (the initializer is all ones), so the failure count of the
window is 10, a further failure log keeps it at 10 and a success log
lowers it to 9 - but the value sumFrameErrors actually returns sits on
top of an uninitialized accumulator, so junk start 1 reads 11 instead
of 10. -/
theorem c10_initial_window :
    initState.errors = List.replicate 10 1 ∧
    sumFrameErrors 0 initState.errors = 10 ∧
    sumFrameErrors 0 ((logFrameError initState true).errors) = 10 ∧
    sumFrameErrors 0 ((logFrameError initState false).errors) = 9 ∧
    sumFrameErrors 1 initState.errors = 11 := by
  decide

set_option maxRecDepth 40000 in
/-- C1 counterexample: from the cold-start state (previous-was-marker
flag clear), feeding the encoder output for the simulator preset frame
23:57, day 365, year 10 - all 60 symbols - plus two further markers
never yields an accepted frame: the opening marker of the frame is
buffered as a regular marker, the frame overflows at its closing
marker, and the two extra markers form a boundary that fails
validation, so the held frame buffer is still the startup value 0 and
its decode is not the encoded TimeFrame.  Even feeding two entire
consecutive frames plus the following opening marker decodes nothing
from the cold-start state. -/
theorem c1_counterexample :
    ((encodeWidths (encodeBits ⟨5, 7, 2, 3, 3, 6, 5, 5, 3, 1, 0, 3, 0, 0⟩) ++ [800, 800]).foldl
        processBit initState).lastFrameBuffer = 0 ∧
    ¬ decodeFrame (((encodeWidths (encodeBits ⟨5, 7, 2, 3, 3, 6, 5, 5, 3, 1, 0, 3, 0, 0⟩)
          ++ [800, 800]).foldl processBit initState).lastFrameBuffer)
        = ⟨5, 7, 2, 3, 3, 6, 5, 5, 3, 1, 0, 3, 0, 0⟩ ∧
    ((encodeWidths (encodeBits ⟨5, 7, 2, 3, 3, 6, 5, 5, 3, 1, 0, 3, 0, 0⟩)
        ++ encodeWidths (encodeBits (incrementWwvbMinute ⟨5, 7, 2, 3, 3, 6, 5, 5, 3, 1, 0, 3, 0, 0⟩))
        ++ [800]).foldl processBit initState).lastFrameBuffer = 0 := by
  decide



/-- Bit k of the 64-bit transmit buffer. -/
def bitAt (B k : Nat) : Nat :=
  (B >>> k) &&& 1

/-- The low-duration the simulator emits at a given frame position:
800 ms at position 0 and at each position with (position + 1) % 10 = 0,
otherwise 200 + 300 * bit, i.e. 200 ms for a Zero bit and 500 ms for a
One bit of the buffer at index 63 - position. -/
def symAt (B p : Nat) : Nat :=
  if p = 0 ∨ (p + 1) % 10 = 0 then 800 else 200 + 300 * bitAt B (63 - p)

/-- The value the receive buffer accumulates over positions p..59 of a
cleanly received frame: every data position q contributes its buffer bit
63 - q at receive index 64 - q, marker positions contribute nothing. -/
def tailSum (B p : Nat) : Nat :=
  if h : p ≤ 59 then
    (if (p + 1) % 10 = 0 then 0 else bitAt B (63 - p) * 2 ^ (64 - p)) + tailSum B (p + 1)
  else 0
termination_by 60 - p
decreasing_by omega

theorem bitAt_le_one (B k : Nat) : bitAt B k ≤ 1 := by
  unfold bitAt
  rw [Nat.and_one_is_mod]
  omega

theorem bitAt_eq_div_mod (B k : Nat) : bitAt B k = B / 2 ^ k % 2 := by
  unfold bitAt
  rw [Nat.and_one_is_mod, Nat.shiftRight_eq_div_pow]

theorem shiftLeft_lor_distrib (x y k : Nat) :
    (x <<< k) ||| (y <<< k) = (x ||| y) <<< k := by
  apply Nat.eq_of_testBit_eq
  intro j
  simp only [Nat.testBit_lor, Nat.testBit_shiftLeft]
  cases Decidable.em (k ≤ j) with
  | inl h => simp [h]
  | inr h => simp [h]

theorem lor_pow_bit (m c k : Nat) (hc : c ≤ 1) :
    (m * (2 * 2 ^ k)) ||| (c <<< k) = (2 * m + c) * 2 ^ k := by
  interval_cases c
  · rw [Nat.zero_shiftLeft, Nat.or_zero]
    ring
  · have h1 : m * (2 * 2 ^ k) = (2 * m) <<< k := by
      rw [Nat.shiftLeft_eq]
      ring
    rw [h1, shiftLeft_lor_distrib]
    have h3 : (2 * m) ||| 1 = 2 * m + 1 := by
      have h := Nat.lor_bit false m true 0
      simpa [Nat.bit] using h
    rw [h3, Nat.shiftLeft_eq]

theorem lor_bit_add (a c k : Nat) (hc : c ≤ 1) (h : 2 ^ (k + 1) ∣ a) :
    a ||| (c <<< k) = a + c * 2 ^ k := by
  obtain ⟨m, hm⟩ := h
  subst hm
  have ha : 2 ^ (k + 1) * m = m * (2 * 2 ^ k) := by ring
  rw [ha, lor_pow_bit m c k hc]
  ring

/-- The emission loop in terms of symAt: the bit test of the source,
(timeBits & (1 << (63 - position))) nonzero, picks exactly bit
63 - position of the buffer. -/
theorem encodeWidths_eq_map (B : Nat) :
    encodeWidths B = (List.range 60).map (symAt B) := by
  unfold encodeWidths
  apply List.map_congr_left
  intro p hp
  unfold symAt
  rcases Decidable.em (p = 0 ∨ (p + 1) % 10 = 0) with hm | hm
  · rw [if_pos hm, if_pos hm]
  · rw [if_neg hm, if_neg hm]
    have hb : B &&& (1 <<< (63 - p)) = (Nat.testBit B (63 - p)).toNat * 2 ^ (63 - p) := by
      rw [Nat.one_shiftLeft, Nat.and_two_pow]
    have hbit : bitAt B (63 - p) = B / 2 ^ (63 - p) % 2 := bitAt_eq_div_mod B (63 - p)
    rw [hb, Nat.testBit_to_div_mod]
    rcases Decidable.em (B / 2 ^ (63 - p) % 2 = 1) with h1 | h1
    · rw [if_pos ?_]
      · rw [hbit, h1]
      · simp [h1]
    · have h0 : B / 2 ^ (63 - p) % 2 = 0 := by omega
      rw [if_neg ?_]
      · rw [hbit, h0]
      · simp [h0]

theorem encodeWidths_cons (B : Nat) :
    encodeWidths B = 800 :: (List.range 59).map (fun j => symAt B (1 + j)) := by
  rw [encodeWidths_eq_map]
  rw [show (60 : Nat) = 59 + 1 from rfl, List.range_succ_eq_map, List.map_cons, List.map_map]
  have h0 : symAt B 0 = 800 := by simp [symAt]
  rw [h0]
  congr 1

set_option maxRecDepth 4000 in
theorem tailSum_one (B : Nat) :
    tailSum B 1 =
      bitAt B 62 * 2 ^ 63 +
      bitAt B 61 * 2 ^ 62 +
      bitAt B 60 * 2 ^ 61 +
      bitAt B 59 * 2 ^ 60 +
      bitAt B 58 * 2 ^ 59 +
      bitAt B 57 * 2 ^ 58 +
      bitAt B 56 * 2 ^ 57 +
      bitAt B 55 * 2 ^ 56 +
      bitAt B 53 * 2 ^ 54 +
      bitAt B 52 * 2 ^ 53 +
      bitAt B 51 * 2 ^ 52 +
      bitAt B 50 * 2 ^ 51 +
      bitAt B 49 * 2 ^ 50 +
      bitAt B 48 * 2 ^ 49 +
      bitAt B 47 * 2 ^ 48 +
      bitAt B 46 * 2 ^ 47 +
      bitAt B 45 * 2 ^ 46 +
      bitAt B 43 * 2 ^ 44 +
      bitAt B 42 * 2 ^ 43 +
      bitAt B 41 * 2 ^ 42 +
      bitAt B 40 * 2 ^ 41 +
      bitAt B 39 * 2 ^ 40 +
      bitAt B 38 * 2 ^ 39 +
      bitAt B 37 * 2 ^ 38 +
      bitAt B 36 * 2 ^ 37 +
      bitAt B 35 * 2 ^ 36 +
      bitAt B 33 * 2 ^ 34 +
      bitAt B 32 * 2 ^ 33 +
      bitAt B 31 * 2 ^ 32 +
      bitAt B 30 * 2 ^ 31 +
      bitAt B 29 * 2 ^ 30 +
      bitAt B 28 * 2 ^ 29 +
      bitAt B 27 * 2 ^ 28 +
      bitAt B 26 * 2 ^ 27 +
      bitAt B 25 * 2 ^ 26 +
      bitAt B 23 * 2 ^ 24 +
      bitAt B 22 * 2 ^ 23 +
      bitAt B 21 * 2 ^ 22 +
      bitAt B 20 * 2 ^ 21 +
      bitAt B 19 * 2 ^ 20 +
      bitAt B 18 * 2 ^ 19 +
      bitAt B 17 * 2 ^ 18 +
      bitAt B 16 * 2 ^ 17 +
      bitAt B 15 * 2 ^ 16 +
      bitAt B 13 * 2 ^ 14 +
      bitAt B 12 * 2 ^ 13 +
      bitAt B 11 * 2 ^ 12 +
      bitAt B 10 * 2 ^ 11 +
      bitAt B 9 * 2 ^ 10 +
      bitAt B 8 * 2 ^ 9 +
      bitAt B 7 * 2 ^ 8 +
      bitAt B 6 * 2 ^ 7 +
      bitAt B 5 * 2 ^ 6 := by
  simp [tailSum]
  ring


set_option maxHeartbeats 4000000 in
theorem encodeBits_eq (mt mo ht ho dh dt dn os ov yt yo ds ly ls : Nat)
    (hmt : mt < 8) (hmo : mo < 16) (hht : ht < 4) (hho : ho < 16) (hdh : dh < 4) (hdt : dt < 16) (hdn : dn < 16) (hos : os < 8) (hov : ov < 16) (hyt : yt < 16) (hyo : yo < 16) (hds : ds < 4) (hly : ly < 2) (hls : ls < 2) :
    encodeBits ⟨mt, mo, ht, ho, dh, dt, dn, os, ov, yt, yo, ds, ls, ly⟩ = mt * 2 ^ 60 + mo * 2 ^ 55 + ht * 2 ^ 50 + ho * 2 ^ 45 + dh * 2 ^ 40 + dt * 2 ^ 35 + dn * 2 ^ 30 + os * 2 ^ 25 + ov * 2 ^ 20 + yt * 2 ^ 15 + yo * 2 ^ 10 + ds * 2 ^ 5 + ly * 2 ^ 8 + ls * 2 ^ 7 := by
  have s1 : setField 0 60 3 mt = mt * 2 ^ 60 := by
    simp only [setField]
    omega
  have s2 : setField (mt * 2 ^ 60) 55 4 mo = mt * 2 ^ 60 + mo * 2 ^ 55 := by
    simp only [setField]
    omega
  have s3 : setField (mt * 2 ^ 60 + mo * 2 ^ 55) 50 2 ht = mt * 2 ^ 60 + mo * 2 ^ 55 + ht * 2 ^ 50 := by
    simp only [setField]
    omega
  have s4 : setField (mt * 2 ^ 60 + mo * 2 ^ 55 + ht * 2 ^ 50) 45 4 ho = mt * 2 ^ 60 + mo * 2 ^ 55 + ht * 2 ^ 50 + ho * 2 ^ 45 := by
    simp only [setField]
    omega
  have s5 : setField (mt * 2 ^ 60 + mo * 2 ^ 55 + ht * 2 ^ 50 + ho * 2 ^ 45) 40 2 dh = mt * 2 ^ 60 + mo * 2 ^ 55 + ht * 2 ^ 50 + ho * 2 ^ 45 + dh * 2 ^ 40 := by
    simp only [setField]
    omega
  have s6 : setField (mt * 2 ^ 60 + mo * 2 ^ 55 + ht * 2 ^ 50 + ho * 2 ^ 45 + dh * 2 ^ 40) 35 4 dt = mt * 2 ^ 60 + mo * 2 ^ 55 + ht * 2 ^ 50 + ho * 2 ^ 45 + dh * 2 ^ 40 + dt * 2 ^ 35 := by
    simp only [setField]
    omega
  have s7 : setField (mt * 2 ^ 60 + mo * 2 ^ 55 + ht * 2 ^ 50 + ho * 2 ^ 45 + dh * 2 ^ 40 + dt * 2 ^ 35) 30 4 dn = mt * 2 ^ 60 + mo * 2 ^ 55 + ht * 2 ^ 50 + ho * 2 ^ 45 + dh * 2 ^ 40 + dt * 2 ^ 35 + dn * 2 ^ 30 := by
    simp only [setField]
    omega
  have s8 : setField (mt * 2 ^ 60 + mo * 2 ^ 55 + ht * 2 ^ 50 + ho * 2 ^ 45 + dh * 2 ^ 40 + dt * 2 ^ 35 + dn * 2 ^ 30) 25 3 os = mt * 2 ^ 60 + mo * 2 ^ 55 + ht * 2 ^ 50 + ho * 2 ^ 45 + dh * 2 ^ 40 + dt * 2 ^ 35 + dn * 2 ^ 30 + os * 2 ^ 25 := by
    simp only [setField]
    omega
  have s9 : setField (mt * 2 ^ 60 + mo * 2 ^ 55 + ht * 2 ^ 50 + ho * 2 ^ 45 + dh * 2 ^ 40 + dt * 2 ^ 35 + dn * 2 ^ 30 + os * 2 ^ 25) 20 4 ov = mt * 2 ^ 60 + mo * 2 ^ 55 + ht * 2 ^ 50 + ho * 2 ^ 45 + dh * 2 ^ 40 + dt * 2 ^ 35 + dn * 2 ^ 30 + os * 2 ^ 25 + ov * 2 ^ 20 := by
    simp only [setField]
    omega
  have s10 : setField (mt * 2 ^ 60 + mo * 2 ^ 55 + ht * 2 ^ 50 + ho * 2 ^ 45 + dh * 2 ^ 40 + dt * 2 ^ 35 + dn * 2 ^ 30 + os * 2 ^ 25 + ov * 2 ^ 20) 15 4 yt = mt * 2 ^ 60 + mo * 2 ^ 55 + ht * 2 ^ 50 + ho * 2 ^ 45 + dh * 2 ^ 40 + dt * 2 ^ 35 + dn * 2 ^ 30 + os * 2 ^ 25 + ov * 2 ^ 20 + yt * 2 ^ 15 := by
    simp only [setField]
    omega
  have s11 : setField (mt * 2 ^ 60 + mo * 2 ^ 55 + ht * 2 ^ 50 + ho * 2 ^ 45 + dh * 2 ^ 40 + dt * 2 ^ 35 + dn * 2 ^ 30 + os * 2 ^ 25 + ov * 2 ^ 20 + yt * 2 ^ 15) 10 4 yo = mt * 2 ^ 60 + mo * 2 ^ 55 + ht * 2 ^ 50 + ho * 2 ^ 45 + dh * 2 ^ 40 + dt * 2 ^ 35 + dn * 2 ^ 30 + os * 2 ^ 25 + ov * 2 ^ 20 + yt * 2 ^ 15 + yo * 2 ^ 10 := by
    simp only [setField]
    omega
  have s12 : setField (mt * 2 ^ 60 + mo * 2 ^ 55 + ht * 2 ^ 50 + ho * 2 ^ 45 + dh * 2 ^ 40 + dt * 2 ^ 35 + dn * 2 ^ 30 + os * 2 ^ 25 + ov * 2 ^ 20 + yt * 2 ^ 15 + yo * 2 ^ 10) 5 2 ds = mt * 2 ^ 60 + mo * 2 ^ 55 + ht * 2 ^ 50 + ho * 2 ^ 45 + dh * 2 ^ 40 + dt * 2 ^ 35 + dn * 2 ^ 30 + os * 2 ^ 25 + ov * 2 ^ 20 + yt * 2 ^ 15 + yo * 2 ^ 10 + ds * 2 ^ 5 := by
    simp only [setField]
    omega
  have s13 : setField (mt * 2 ^ 60 + mo * 2 ^ 55 + ht * 2 ^ 50 + ho * 2 ^ 45 + dh * 2 ^ 40 + dt * 2 ^ 35 + dn * 2 ^ 30 + os * 2 ^ 25 + ov * 2 ^ 20 + yt * 2 ^ 15 + yo * 2 ^ 10 + ds * 2 ^ 5) 8 1 ly = mt * 2 ^ 60 + mo * 2 ^ 55 + ht * 2 ^ 50 + ho * 2 ^ 45 + dh * 2 ^ 40 + dt * 2 ^ 35 + dn * 2 ^ 30 + os * 2 ^ 25 + ov * 2 ^ 20 + yt * 2 ^ 15 + yo * 2 ^ 10 + ds * 2 ^ 5 + ly * 2 ^ 8 := by
    simp only [setField]
    omega
  have s14 : setField (mt * 2 ^ 60 + mo * 2 ^ 55 + ht * 2 ^ 50 + ho * 2 ^ 45 + dh * 2 ^ 40 + dt * 2 ^ 35 + dn * 2 ^ 30 + os * 2 ^ 25 + ov * 2 ^ 20 + yt * 2 ^ 15 + yo * 2 ^ 10 + ds * 2 ^ 5 + ly * 2 ^ 8) 7 1 ls = mt * 2 ^ 60 + mo * 2 ^ 55 + ht * 2 ^ 50 + ho * 2 ^ 45 + dh * 2 ^ 40 + dt * 2 ^ 35 + dn * 2 ^ 30 + os * 2 ^ 25 + ov * 2 ^ 20 + yt * 2 ^ 15 + yo * 2 ^ 10 + ds * 2 ^ 5 + ly * 2 ^ 8 + ls * 2 ^ 7 := by
    simp only [setField]
    omega
  simp only [encodeBits]
  rw [s1, s2, s3, s4, s5, s6, s7, s8, s9, s10, s11, s12, s13, s14]

theorem gapBit59 (mt mo ht ho dh dt dn os ov yt yo ds ly ls B : Nat) (hmt : mt < 8) (hmo : mo < 16) (hht : ht < 4) (hho : ho < 16) (hdh : dh < 4) (hdt : dt < 16) (hdn : dn < 16) (hos : os < 8) (hov : ov < 16) (hyt : yt < 16) (hyo : yo < 16) (hds : ds < 4) (hly : ly < 2) (hls : ls < 2)
    (hB : B = mt * 2 ^ 60 + mo * 2 ^ 55 + ht * 2 ^ 50 + ho * 2 ^ 45 + dh * 2 ^ 40 + dt * 2 ^ 35 + dn * 2 ^ 30 + os * 2 ^ 25 + ov * 2 ^ 20 + yt * 2 ^ 15 + yo * 2 ^ 10 + ds * 2 ^ 5 + ly * 2 ^ 8 + ls * 2 ^ 7) :
    bitAt B 59 = 0 := by
  rw [bitAt_eq_div_mod, hB]
  omega

theorem gapBit53 (mt mo ht ho dh dt dn os ov yt yo ds ly ls B : Nat) (hmt : mt < 8) (hmo : mo < 16) (hht : ht < 4) (hho : ho < 16) (hdh : dh < 4) (hdt : dt < 16) (hdn : dn < 16) (hos : os < 8) (hov : ov < 16) (hyt : yt < 16) (hyo : yo < 16) (hds : ds < 4) (hly : ly < 2) (hls : ls < 2)
    (hB : B = mt * 2 ^ 60 + mo * 2 ^ 55 + ht * 2 ^ 50 + ho * 2 ^ 45 + dh * 2 ^ 40 + dt * 2 ^ 35 + dn * 2 ^ 30 + os * 2 ^ 25 + ov * 2 ^ 20 + yt * 2 ^ 15 + yo * 2 ^ 10 + ds * 2 ^ 5 + ly * 2 ^ 8 + ls * 2 ^ 7) :
    bitAt B 53 = 0 := by
  rw [bitAt_eq_div_mod, hB]
  omega

theorem gapBit52 (mt mo ht ho dh dt dn os ov yt yo ds ly ls B : Nat) (hmt : mt < 8) (hmo : mo < 16) (hht : ht < 4) (hho : ho < 16) (hdh : dh < 4) (hdt : dt < 16) (hdn : dn < 16) (hos : os < 8) (hov : ov < 16) (hyt : yt < 16) (hyo : yo < 16) (hds : ds < 4) (hly : ly < 2) (hls : ls < 2)
    (hB : B = mt * 2 ^ 60 + mo * 2 ^ 55 + ht * 2 ^ 50 + ho * 2 ^ 45 + dh * 2 ^ 40 + dt * 2 ^ 35 + dn * 2 ^ 30 + os * 2 ^ 25 + ov * 2 ^ 20 + yt * 2 ^ 15 + yo * 2 ^ 10 + ds * 2 ^ 5 + ly * 2 ^ 8 + ls * 2 ^ 7) :
    bitAt B 52 = 0 := by
  rw [bitAt_eq_div_mod, hB]
  omega

theorem gapBit49 (mt mo ht ho dh dt dn os ov yt yo ds ly ls B : Nat) (hmt : mt < 8) (hmo : mo < 16) (hht : ht < 4) (hho : ho < 16) (hdh : dh < 4) (hdt : dt < 16) (hdn : dn < 16) (hos : os < 8) (hov : ov < 16) (hyt : yt < 16) (hyo : yo < 16) (hds : ds < 4) (hly : ly < 2) (hls : ls < 2)
    (hB : B = mt * 2 ^ 60 + mo * 2 ^ 55 + ht * 2 ^ 50 + ho * 2 ^ 45 + dh * 2 ^ 40 + dt * 2 ^ 35 + dn * 2 ^ 30 + os * 2 ^ 25 + ov * 2 ^ 20 + yt * 2 ^ 15 + yo * 2 ^ 10 + ds * 2 ^ 5 + ly * 2 ^ 8 + ls * 2 ^ 7) :
    bitAt B 49 = 0 := by
  rw [bitAt_eq_div_mod, hB]
  omega

theorem gapBit43 (mt mo ht ho dh dt dn os ov yt yo ds ly ls B : Nat) (hmt : mt < 8) (hmo : mo < 16) (hht : ht < 4) (hho : ho < 16) (hdh : dh < 4) (hdt : dt < 16) (hdn : dn < 16) (hos : os < 8) (hov : ov < 16) (hyt : yt < 16) (hyo : yo < 16) (hds : ds < 4) (hly : ly < 2) (hls : ls < 2)
    (hB : B = mt * 2 ^ 60 + mo * 2 ^ 55 + ht * 2 ^ 50 + ho * 2 ^ 45 + dh * 2 ^ 40 + dt * 2 ^ 35 + dn * 2 ^ 30 + os * 2 ^ 25 + ov * 2 ^ 20 + yt * 2 ^ 15 + yo * 2 ^ 10 + ds * 2 ^ 5 + ly * 2 ^ 8 + ls * 2 ^ 7) :
    bitAt B 43 = 0 := by
  rw [bitAt_eq_div_mod, hB]
  omega

theorem gapBit42 (mt mo ht ho dh dt dn os ov yt yo ds ly ls B : Nat) (hmt : mt < 8) (hmo : mo < 16) (hht : ht < 4) (hho : ho < 16) (hdh : dh < 4) (hdt : dt < 16) (hdn : dn < 16) (hos : os < 8) (hov : ov < 16) (hyt : yt < 16) (hyo : yo < 16) (hds : ds < 4) (hly : ly < 2) (hls : ls < 2)
    (hB : B = mt * 2 ^ 60 + mo * 2 ^ 55 + ht * 2 ^ 50 + ho * 2 ^ 45 + dh * 2 ^ 40 + dt * 2 ^ 35 + dn * 2 ^ 30 + os * 2 ^ 25 + ov * 2 ^ 20 + yt * 2 ^ 15 + yo * 2 ^ 10 + ds * 2 ^ 5 + ly * 2 ^ 8 + ls * 2 ^ 7) :
    bitAt B 42 = 0 := by
  rw [bitAt_eq_div_mod, hB]
  omega

theorem gapBit39 (mt mo ht ho dh dt dn os ov yt yo ds ly ls B : Nat) (hmt : mt < 8) (hmo : mo < 16) (hht : ht < 4) (hho : ho < 16) (hdh : dh < 4) (hdt : dt < 16) (hdn : dn < 16) (hos : os < 8) (hov : ov < 16) (hyt : yt < 16) (hyo : yo < 16) (hds : ds < 4) (hly : ly < 2) (hls : ls < 2)
    (hB : B = mt * 2 ^ 60 + mo * 2 ^ 55 + ht * 2 ^ 50 + ho * 2 ^ 45 + dh * 2 ^ 40 + dt * 2 ^ 35 + dn * 2 ^ 30 + os * 2 ^ 25 + ov * 2 ^ 20 + yt * 2 ^ 15 + yo * 2 ^ 10 + ds * 2 ^ 5 + ly * 2 ^ 8 + ls * 2 ^ 7) :
    bitAt B 39 = 0 := by
  rw [bitAt_eq_div_mod, hB]
  omega

theorem gapBit29 (mt mo ht ho dh dt dn os ov yt yo ds ly ls B : Nat) (hmt : mt < 8) (hmo : mo < 16) (hht : ht < 4) (hho : ho < 16) (hdh : dh < 4) (hdt : dt < 16) (hdn : dn < 16) (hos : os < 8) (hov : ov < 16) (hyt : yt < 16) (hyo : yo < 16) (hds : ds < 4) (hly : ly < 2) (hls : ls < 2)
    (hB : B = mt * 2 ^ 60 + mo * 2 ^ 55 + ht * 2 ^ 50 + ho * 2 ^ 45 + dh * 2 ^ 40 + dt * 2 ^ 35 + dn * 2 ^ 30 + os * 2 ^ 25 + ov * 2 ^ 20 + yt * 2 ^ 15 + yo * 2 ^ 10 + ds * 2 ^ 5 + ly * 2 ^ 8 + ls * 2 ^ 7) :
    bitAt B 29 = 0 := by
  rw [bitAt_eq_div_mod, hB]
  omega

theorem gapBit28 (mt mo ht ho dh dt dn os ov yt yo ds ly ls B : Nat) (hmt : mt < 8) (hmo : mo < 16) (hht : ht < 4) (hho : ho < 16) (hdh : dh < 4) (hdt : dt < 16) (hdn : dn < 16) (hos : os < 8) (hov : ov < 16) (hyt : yt < 16) (hyo : yo < 16) (hds : ds < 4) (hly : ly < 2) (hls : ls < 2)
    (hB : B = mt * 2 ^ 60 + mo * 2 ^ 55 + ht * 2 ^ 50 + ho * 2 ^ 45 + dh * 2 ^ 40 + dt * 2 ^ 35 + dn * 2 ^ 30 + os * 2 ^ 25 + ov * 2 ^ 20 + yt * 2 ^ 15 + yo * 2 ^ 10 + ds * 2 ^ 5 + ly * 2 ^ 8 + ls * 2 ^ 7) :
    bitAt B 28 = 0 := by
  rw [bitAt_eq_div_mod, hB]
  omega

theorem gapBit19 (mt mo ht ho dh dt dn os ov yt yo ds ly ls B : Nat) (hmt : mt < 8) (hmo : mo < 16) (hht : ht < 4) (hho : ho < 16) (hdh : dh < 4) (hdt : dt < 16) (hdn : dn < 16) (hos : os < 8) (hov : ov < 16) (hyt : yt < 16) (hyo : yo < 16) (hds : ds < 4) (hly : ly < 2) (hls : ls < 2)
    (hB : B = mt * 2 ^ 60 + mo * 2 ^ 55 + ht * 2 ^ 50 + ho * 2 ^ 45 + dh * 2 ^ 40 + dt * 2 ^ 35 + dn * 2 ^ 30 + os * 2 ^ 25 + ov * 2 ^ 20 + yt * 2 ^ 15 + yo * 2 ^ 10 + ds * 2 ^ 5 + ly * 2 ^ 8 + ls * 2 ^ 7) :
    bitAt B 19 = 0 := by
  rw [bitAt_eq_div_mod, hB]
  omega

theorem gapBit9 (mt mo ht ho dh dt dn os ov yt yo ds ly ls B : Nat) (hmt : mt < 8) (hmo : mo < 16) (hht : ht < 4) (hho : ho < 16) (hdh : dh < 4) (hdt : dt < 16) (hdn : dn < 16) (hos : os < 8) (hov : ov < 16) (hyt : yt < 16) (hyo : yo < 16) (hds : ds < 4) (hly : ly < 2) (hls : ls < 2)
    (hB : B = mt * 2 ^ 60 + mo * 2 ^ 55 + ht * 2 ^ 50 + ho * 2 ^ 45 + dh * 2 ^ 40 + dt * 2 ^ 35 + dn * 2 ^ 30 + os * 2 ^ 25 + ov * 2 ^ 20 + yt * 2 ^ 15 + yo * 2 ^ 10 + ds * 2 ^ 5 + ly * 2 ^ 8 + ls * 2 ^ 7) :
    bitAt B 9 = 0 := by
  rw [bitAt_eq_div_mod, hB]
  omega

theorem sliceBitsmt (mt mo ht ho dh dt dn os ov yt yo ds ly ls B : Nat) (hmt : mt < 8) (hmo : mo < 16) (hht : ht < 4) (hho : ho < 16) (hdh : dh < 4) (hdt : dt < 16) (hdn : dn < 16) (hos : os < 8) (hov : ov < 16) (hyt : yt < 16) (hyo : yo < 16) (hds : ds < 4) (hly : ly < 2) (hls : ls < 2)
    (hB : B = mt * 2 ^ 60 + mo * 2 ^ 55 + ht * 2 ^ 50 + ho * 2 ^ 45 + dh * 2 ^ 40 + dt * 2 ^ 35 + dn * 2 ^ 30 + os * 2 ^ 25 + ov * 2 ^ 20 + yt * 2 ^ 15 + yo * 2 ^ 10 + ds * 2 ^ 5 + ly * 2 ^ 8 + ls * 2 ^ 7) :
    bitAt B 62 * 2 ^ 63 + bitAt B 61 * 2 ^ 62 + bitAt B 60 * 2 ^ 61 = mt * 2 ^ 61 := by
  have hv : B / 2 ^ 60 % 2 ^ 3 = mt := by
    rw [hB]
    omega
  simp only [bitAt_eq_div_mod]
  rw [show (mt : Nat) = B / 2 ^ 60 % 2 ^ 3 from hv.symm]
  omega

theorem sliceBitsmo (mt mo ht ho dh dt dn os ov yt yo ds ly ls B : Nat) (hmt : mt < 8) (hmo : mo < 16) (hht : ht < 4) (hho : ho < 16) (hdh : dh < 4) (hdt : dt < 16) (hdn : dn < 16) (hos : os < 8) (hov : ov < 16) (hyt : yt < 16) (hyo : yo < 16) (hds : ds < 4) (hly : ly < 2) (hls : ls < 2)
    (hB : B = mt * 2 ^ 60 + mo * 2 ^ 55 + ht * 2 ^ 50 + ho * 2 ^ 45 + dh * 2 ^ 40 + dt * 2 ^ 35 + dn * 2 ^ 30 + os * 2 ^ 25 + ov * 2 ^ 20 + yt * 2 ^ 15 + yo * 2 ^ 10 + ds * 2 ^ 5 + ly * 2 ^ 8 + ls * 2 ^ 7) :
    bitAt B 58 * 2 ^ 59 + bitAt B 57 * 2 ^ 58 + bitAt B 56 * 2 ^ 57 + bitAt B 55 * 2 ^ 56 = mo * 2 ^ 56 := by
  have hv : B / 2 ^ 55 % 2 ^ 4 = mo := by
    rw [hB]
    omega
  simp only [bitAt_eq_div_mod]
  rw [show (mo : Nat) = B / 2 ^ 55 % 2 ^ 4 from hv.symm]
  omega

theorem sliceBitsht (mt mo ht ho dh dt dn os ov yt yo ds ly ls B : Nat) (hmt : mt < 8) (hmo : mo < 16) (hht : ht < 4) (hho : ho < 16) (hdh : dh < 4) (hdt : dt < 16) (hdn : dn < 16) (hos : os < 8) (hov : ov < 16) (hyt : yt < 16) (hyo : yo < 16) (hds : ds < 4) (hly : ly < 2) (hls : ls < 2)
    (hB : B = mt * 2 ^ 60 + mo * 2 ^ 55 + ht * 2 ^ 50 + ho * 2 ^ 45 + dh * 2 ^ 40 + dt * 2 ^ 35 + dn * 2 ^ 30 + os * 2 ^ 25 + ov * 2 ^ 20 + yt * 2 ^ 15 + yo * 2 ^ 10 + ds * 2 ^ 5 + ly * 2 ^ 8 + ls * 2 ^ 7) :
    bitAt B 51 * 2 ^ 52 + bitAt B 50 * 2 ^ 51 = ht * 2 ^ 51 := by
  have hv : B / 2 ^ 50 % 2 ^ 2 = ht := by
    rw [hB]
    omega
  simp only [bitAt_eq_div_mod]
  rw [show (ht : Nat) = B / 2 ^ 50 % 2 ^ 2 from hv.symm]
  omega

theorem sliceBitsho (mt mo ht ho dh dt dn os ov yt yo ds ly ls B : Nat) (hmt : mt < 8) (hmo : mo < 16) (hht : ht < 4) (hho : ho < 16) (hdh : dh < 4) (hdt : dt < 16) (hdn : dn < 16) (hos : os < 8) (hov : ov < 16) (hyt : yt < 16) (hyo : yo < 16) (hds : ds < 4) (hly : ly < 2) (hls : ls < 2)
    (hB : B = mt * 2 ^ 60 + mo * 2 ^ 55 + ht * 2 ^ 50 + ho * 2 ^ 45 + dh * 2 ^ 40 + dt * 2 ^ 35 + dn * 2 ^ 30 + os * 2 ^ 25 + ov * 2 ^ 20 + yt * 2 ^ 15 + yo * 2 ^ 10 + ds * 2 ^ 5 + ly * 2 ^ 8 + ls * 2 ^ 7) :
    bitAt B 48 * 2 ^ 49 + bitAt B 47 * 2 ^ 48 + bitAt B 46 * 2 ^ 47 + bitAt B 45 * 2 ^ 46 = ho * 2 ^ 46 := by
  have hv : B / 2 ^ 45 % 2 ^ 4 = ho := by
    rw [hB]
    omega
  simp only [bitAt_eq_div_mod]
  rw [show (ho : Nat) = B / 2 ^ 45 % 2 ^ 4 from hv.symm]
  omega

theorem sliceBitsdh (mt mo ht ho dh dt dn os ov yt yo ds ly ls B : Nat) (hmt : mt < 8) (hmo : mo < 16) (hht : ht < 4) (hho : ho < 16) (hdh : dh < 4) (hdt : dt < 16) (hdn : dn < 16) (hos : os < 8) (hov : ov < 16) (hyt : yt < 16) (hyo : yo < 16) (hds : ds < 4) (hly : ly < 2) (hls : ls < 2)
    (hB : B = mt * 2 ^ 60 + mo * 2 ^ 55 + ht * 2 ^ 50 + ho * 2 ^ 45 + dh * 2 ^ 40 + dt * 2 ^ 35 + dn * 2 ^ 30 + os * 2 ^ 25 + ov * 2 ^ 20 + yt * 2 ^ 15 + yo * 2 ^ 10 + ds * 2 ^ 5 + ly * 2 ^ 8 + ls * 2 ^ 7) :
    bitAt B 41 * 2 ^ 42 + bitAt B 40 * 2 ^ 41 = dh * 2 ^ 41 := by
  have hv : B / 2 ^ 40 % 2 ^ 2 = dh := by
    rw [hB]
    omega
  simp only [bitAt_eq_div_mod]
  rw [show (dh : Nat) = B / 2 ^ 40 % 2 ^ 2 from hv.symm]
  omega

theorem sliceBitsdt (mt mo ht ho dh dt dn os ov yt yo ds ly ls B : Nat) (hmt : mt < 8) (hmo : mo < 16) (hht : ht < 4) (hho : ho < 16) (hdh : dh < 4) (hdt : dt < 16) (hdn : dn < 16) (hos : os < 8) (hov : ov < 16) (hyt : yt < 16) (hyo : yo < 16) (hds : ds < 4) (hly : ly < 2) (hls : ls < 2)
    (hB : B = mt * 2 ^ 60 + mo * 2 ^ 55 + ht * 2 ^ 50 + ho * 2 ^ 45 + dh * 2 ^ 40 + dt * 2 ^ 35 + dn * 2 ^ 30 + os * 2 ^ 25 + ov * 2 ^ 20 + yt * 2 ^ 15 + yo * 2 ^ 10 + ds * 2 ^ 5 + ly * 2 ^ 8 + ls * 2 ^ 7) :
    bitAt B 38 * 2 ^ 39 + bitAt B 37 * 2 ^ 38 + bitAt B 36 * 2 ^ 37 + bitAt B 35 * 2 ^ 36 = dt * 2 ^ 36 := by
  have hv : B / 2 ^ 35 % 2 ^ 4 = dt := by
    rw [hB]
    omega
  simp only [bitAt_eq_div_mod]
  rw [show (dt : Nat) = B / 2 ^ 35 % 2 ^ 4 from hv.symm]
  omega

theorem sliceBitsdn (mt mo ht ho dh dt dn os ov yt yo ds ly ls B : Nat) (hmt : mt < 8) (hmo : mo < 16) (hht : ht < 4) (hho : ho < 16) (hdh : dh < 4) (hdt : dt < 16) (hdn : dn < 16) (hos : os < 8) (hov : ov < 16) (hyt : yt < 16) (hyo : yo < 16) (hds : ds < 4) (hly : ly < 2) (hls : ls < 2)
    (hB : B = mt * 2 ^ 60 + mo * 2 ^ 55 + ht * 2 ^ 50 + ho * 2 ^ 45 + dh * 2 ^ 40 + dt * 2 ^ 35 + dn * 2 ^ 30 + os * 2 ^ 25 + ov * 2 ^ 20 + yt * 2 ^ 15 + yo * 2 ^ 10 + ds * 2 ^ 5 + ly * 2 ^ 8 + ls * 2 ^ 7) :
    bitAt B 33 * 2 ^ 34 + bitAt B 32 * 2 ^ 33 + bitAt B 31 * 2 ^ 32 + bitAt B 30 * 2 ^ 31 = dn * 2 ^ 31 := by
  have hv : B / 2 ^ 30 % 2 ^ 4 = dn := by
    rw [hB]
    omega
  simp only [bitAt_eq_div_mod]
  rw [show (dn : Nat) = B / 2 ^ 30 % 2 ^ 4 from hv.symm]
  omega

theorem sliceBitsos (mt mo ht ho dh dt dn os ov yt yo ds ly ls B : Nat) (hmt : mt < 8) (hmo : mo < 16) (hht : ht < 4) (hho : ho < 16) (hdh : dh < 4) (hdt : dt < 16) (hdn : dn < 16) (hos : os < 8) (hov : ov < 16) (hyt : yt < 16) (hyo : yo < 16) (hds : ds < 4) (hly : ly < 2) (hls : ls < 2)
    (hB : B = mt * 2 ^ 60 + mo * 2 ^ 55 + ht * 2 ^ 50 + ho * 2 ^ 45 + dh * 2 ^ 40 + dt * 2 ^ 35 + dn * 2 ^ 30 + os * 2 ^ 25 + ov * 2 ^ 20 + yt * 2 ^ 15 + yo * 2 ^ 10 + ds * 2 ^ 5 + ly * 2 ^ 8 + ls * 2 ^ 7) :
    bitAt B 27 * 2 ^ 28 + bitAt B 26 * 2 ^ 27 + bitAt B 25 * 2 ^ 26 = os * 2 ^ 26 := by
  have hv : B / 2 ^ 25 % 2 ^ 3 = os := by
    rw [hB]
    omega
  simp only [bitAt_eq_div_mod]
  rw [show (os : Nat) = B / 2 ^ 25 % 2 ^ 3 from hv.symm]
  omega

theorem sliceBitsov (mt mo ht ho dh dt dn os ov yt yo ds ly ls B : Nat) (hmt : mt < 8) (hmo : mo < 16) (hht : ht < 4) (hho : ho < 16) (hdh : dh < 4) (hdt : dt < 16) (hdn : dn < 16) (hos : os < 8) (hov : ov < 16) (hyt : yt < 16) (hyo : yo < 16) (hds : ds < 4) (hly : ly < 2) (hls : ls < 2)
    (hB : B = mt * 2 ^ 60 + mo * 2 ^ 55 + ht * 2 ^ 50 + ho * 2 ^ 45 + dh * 2 ^ 40 + dt * 2 ^ 35 + dn * 2 ^ 30 + os * 2 ^ 25 + ov * 2 ^ 20 + yt * 2 ^ 15 + yo * 2 ^ 10 + ds * 2 ^ 5 + ly * 2 ^ 8 + ls * 2 ^ 7) :
    bitAt B 23 * 2 ^ 24 + bitAt B 22 * 2 ^ 23 + bitAt B 21 * 2 ^ 22 + bitAt B 20 * 2 ^ 21 = ov * 2 ^ 21 := by
  have hv : B / 2 ^ 20 % 2 ^ 4 = ov := by
    rw [hB]
    omega
  simp only [bitAt_eq_div_mod]
  rw [show (ov : Nat) = B / 2 ^ 20 % 2 ^ 4 from hv.symm]
  omega

theorem sliceBitsyt (mt mo ht ho dh dt dn os ov yt yo ds ly ls B : Nat) (hmt : mt < 8) (hmo : mo < 16) (hht : ht < 4) (hho : ho < 16) (hdh : dh < 4) (hdt : dt < 16) (hdn : dn < 16) (hos : os < 8) (hov : ov < 16) (hyt : yt < 16) (hyo : yo < 16) (hds : ds < 4) (hly : ly < 2) (hls : ls < 2)
    (hB : B = mt * 2 ^ 60 + mo * 2 ^ 55 + ht * 2 ^ 50 + ho * 2 ^ 45 + dh * 2 ^ 40 + dt * 2 ^ 35 + dn * 2 ^ 30 + os * 2 ^ 25 + ov * 2 ^ 20 + yt * 2 ^ 15 + yo * 2 ^ 10 + ds * 2 ^ 5 + ly * 2 ^ 8 + ls * 2 ^ 7) :
    bitAt B 18 * 2 ^ 19 + bitAt B 17 * 2 ^ 18 + bitAt B 16 * 2 ^ 17 + bitAt B 15 * 2 ^ 16 = yt * 2 ^ 16 := by
  have hv : B / 2 ^ 15 % 2 ^ 4 = yt := by
    rw [hB]
    omega
  simp only [bitAt_eq_div_mod]
  rw [show (yt : Nat) = B / 2 ^ 15 % 2 ^ 4 from hv.symm]
  omega

theorem sliceBitsyo (mt mo ht ho dh dt dn os ov yt yo ds ly ls B : Nat) (hmt : mt < 8) (hmo : mo < 16) (hht : ht < 4) (hho : ho < 16) (hdh : dh < 4) (hdt : dt < 16) (hdn : dn < 16) (hos : os < 8) (hov : ov < 16) (hyt : yt < 16) (hyo : yo < 16) (hds : ds < 4) (hly : ly < 2) (hls : ls < 2)
    (hB : B = mt * 2 ^ 60 + mo * 2 ^ 55 + ht * 2 ^ 50 + ho * 2 ^ 45 + dh * 2 ^ 40 + dt * 2 ^ 35 + dn * 2 ^ 30 + os * 2 ^ 25 + ov * 2 ^ 20 + yt * 2 ^ 15 + yo * 2 ^ 10 + ds * 2 ^ 5 + ly * 2 ^ 8 + ls * 2 ^ 7) :
    bitAt B 13 * 2 ^ 14 + bitAt B 12 * 2 ^ 13 + bitAt B 11 * 2 ^ 12 + bitAt B 10 * 2 ^ 11 = yo * 2 ^ 11 := by
  have hv : B / 2 ^ 10 % 2 ^ 4 = yo := by
    rw [hB]
    omega
  simp only [bitAt_eq_div_mod]
  rw [show (yo : Nat) = B / 2 ^ 10 % 2 ^ 4 from hv.symm]
  omega

theorem sliceBitsds (mt mo ht ho dh dt dn os ov yt yo ds ly ls B : Nat) (hmt : mt < 8) (hmo : mo < 16) (hht : ht < 4) (hho : ho < 16) (hdh : dh < 4) (hdt : dt < 16) (hdn : dn < 16) (hos : os < 8) (hov : ov < 16) (hyt : yt < 16) (hyo : yo < 16) (hds : ds < 4) (hly : ly < 2) (hls : ls < 2)
    (hB : B = mt * 2 ^ 60 + mo * 2 ^ 55 + ht * 2 ^ 50 + ho * 2 ^ 45 + dh * 2 ^ 40 + dt * 2 ^ 35 + dn * 2 ^ 30 + os * 2 ^ 25 + ov * 2 ^ 20 + yt * 2 ^ 15 + yo * 2 ^ 10 + ds * 2 ^ 5 + ly * 2 ^ 8 + ls * 2 ^ 7) :
    bitAt B 6 * 2 ^ 7 + bitAt B 5 * 2 ^ 6 = ds * 2 ^ 6 := by
  have hv : B / 2 ^ 5 % 2 ^ 2 = ds := by
    rw [hB]
    omega
  simp only [bitAt_eq_div_mod]
  rw [show (ds : Nat) = B / 2 ^ 5 % 2 ^ 2 from hv.symm]
  omega

theorem sliceBitsly (mt mo ht ho dh dt dn os ov yt yo ds ly ls B : Nat) (hmt : mt < 8) (hmo : mo < 16) (hht : ht < 4) (hho : ho < 16) (hdh : dh < 4) (hdt : dt < 16) (hdn : dn < 16) (hos : os < 8) (hov : ov < 16) (hyt : yt < 16) (hyo : yo < 16) (hds : ds < 4) (hly : ly < 2) (hls : ls < 2)
    (hB : B = mt * 2 ^ 60 + mo * 2 ^ 55 + ht * 2 ^ 50 + ho * 2 ^ 45 + dh * 2 ^ 40 + dt * 2 ^ 35 + dn * 2 ^ 30 + os * 2 ^ 25 + ov * 2 ^ 20 + yt * 2 ^ 15 + yo * 2 ^ 10 + ds * 2 ^ 5 + ly * 2 ^ 8 + ls * 2 ^ 7) :
    bitAt B 8 * 2 ^ 9 = ly * 2 ^ 9 := by
  have hv : B / 2 ^ 8 % 2 ^ 1 = ly := by
    rw [hB]
    omega
  simp only [bitAt_eq_div_mod]
  rw [show (ly : Nat) = B / 2 ^ 8 % 2 ^ 1 from hv.symm]
  omega

theorem sliceBitsls (mt mo ht ho dh dt dn os ov yt yo ds ly ls B : Nat) (hmt : mt < 8) (hmo : mo < 16) (hht : ht < 4) (hho : ho < 16) (hdh : dh < 4) (hdt : dt < 16) (hdn : dn < 16) (hos : os < 8) (hov : ov < 16) (hyt : yt < 16) (hyo : yo < 16) (hds : ds < 4) (hly : ly < 2) (hls : ls < 2)
    (hB : B = mt * 2 ^ 60 + mo * 2 ^ 55 + ht * 2 ^ 50 + ho * 2 ^ 45 + dh * 2 ^ 40 + dt * 2 ^ 35 + dn * 2 ^ 30 + os * 2 ^ 25 + ov * 2 ^ 20 + yt * 2 ^ 15 + yo * 2 ^ 10 + ds * 2 ^ 5 + ly * 2 ^ 8 + ls * 2 ^ 7) :
    bitAt B 7 * 2 ^ 8 = ls * 2 ^ 8 := by
  have hv : B / 2 ^ 7 % 2 ^ 1 = ls := by
    rw [hB]
    omega
  simp only [bitAt_eq_div_mod]
  rw [show (ls : Nat) = B / 2 ^ 7 % 2 ^ 1 from hv.symm]
  omega

set_option maxHeartbeats 8000000 in
theorem assembleBits (b62 b61 b60 b59 b58 b57 b56 b55 b53 b52 b51 b50 b49 b48 b47 b46 b45 b43 b42 b41 b40 b39 b38 b37 b36 b35 b33 b32 b31 b30 b29 b28 b27 b26 b25 b23 b22 b21 b20 b19 b18 b17 b16 b15 b13 b12 b11 b10 b9 b8 b7 b6 b5 mt mo ht ho dh dt dn os ov yt yo ds ly ls B : Nat)
    (g59 : b59 = 0) (g53 : b53 = 0) (g52 : b52 = 0) (g49 : b49 = 0) (g43 : b43 = 0) (g42 : b42 = 0) (g39 : b39 = 0) (g29 : b29 = 0) (g28 : b28 = 0) (g19 : b19 = 0) (g9 : b9 = 0)
    (qmt : b62 * 2 ^ 63 + b61 * 2 ^ 62 + b60 * 2 ^ 61 = mt * 2 ^ 61) (qmo : b58 * 2 ^ 59 + b57 * 2 ^ 58 + b56 * 2 ^ 57 + b55 * 2 ^ 56 = mo * 2 ^ 56) (qht : b51 * 2 ^ 52 + b50 * 2 ^ 51 = ht * 2 ^ 51) (qho : b48 * 2 ^ 49 + b47 * 2 ^ 48 + b46 * 2 ^ 47 + b45 * 2 ^ 46 = ho * 2 ^ 46) (qdh : b41 * 2 ^ 42 + b40 * 2 ^ 41 = dh * 2 ^ 41) (qdt : b38 * 2 ^ 39 + b37 * 2 ^ 38 + b36 * 2 ^ 37 + b35 * 2 ^ 36 = dt * 2 ^ 36) (qdn : b33 * 2 ^ 34 + b32 * 2 ^ 33 + b31 * 2 ^ 32 + b30 * 2 ^ 31 = dn * 2 ^ 31) (qos : b27 * 2 ^ 28 + b26 * 2 ^ 27 + b25 * 2 ^ 26 = os * 2 ^ 26) (qov : b23 * 2 ^ 24 + b22 * 2 ^ 23 + b21 * 2 ^ 22 + b20 * 2 ^ 21 = ov * 2 ^ 21) (qyt : b18 * 2 ^ 19 + b17 * 2 ^ 18 + b16 * 2 ^ 17 + b15 * 2 ^ 16 = yt * 2 ^ 16) (qyo : b13 * 2 ^ 14 + b12 * 2 ^ 13 + b11 * 2 ^ 12 + b10 * 2 ^ 11 = yo * 2 ^ 11) (qds : b6 * 2 ^ 7 + b5 * 2 ^ 6 = ds * 2 ^ 6) (qly : b8 * 2 ^ 9 = ly * 2 ^ 9) (qls : b7 * 2 ^ 8 = ls * 2 ^ 8)
    (hB : B = mt * 2 ^ 60 + mo * 2 ^ 55 + ht * 2 ^ 50 + ho * 2 ^ 45 + dh * 2 ^ 40 + dt * 2 ^ 35 + dn * 2 ^ 30 + os * 2 ^ 25 + ov * 2 ^ 20 + yt * 2 ^ 15 + yo * 2 ^ 10 + ds * 2 ^ 5 + ly * 2 ^ 8 + ls * 2 ^ 7) :
    b62 * 2 ^ 63 +
      b61 * 2 ^ 62 +
      b60 * 2 ^ 61 +
      b59 * 2 ^ 60 +
      b58 * 2 ^ 59 +
      b57 * 2 ^ 58 +
      b56 * 2 ^ 57 +
      b55 * 2 ^ 56 +
      b53 * 2 ^ 54 +
      b52 * 2 ^ 53 +
      b51 * 2 ^ 52 +
      b50 * 2 ^ 51 +
      b49 * 2 ^ 50 +
      b48 * 2 ^ 49 +
      b47 * 2 ^ 48 +
      b46 * 2 ^ 47 +
      b45 * 2 ^ 46 +
      b43 * 2 ^ 44 +
      b42 * 2 ^ 43 +
      b41 * 2 ^ 42 +
      b40 * 2 ^ 41 +
      b39 * 2 ^ 40 +
      b38 * 2 ^ 39 +
      b37 * 2 ^ 38 +
      b36 * 2 ^ 37 +
      b35 * 2 ^ 36 +
      b33 * 2 ^ 34 +
      b32 * 2 ^ 33 +
      b31 * 2 ^ 32 +
      b30 * 2 ^ 31 +
      b29 * 2 ^ 30 +
      b28 * 2 ^ 29 +
      b27 * 2 ^ 28 +
      b26 * 2 ^ 27 +
      b25 * 2 ^ 26 +
      b23 * 2 ^ 24 +
      b22 * 2 ^ 23 +
      b21 * 2 ^ 22 +
      b20 * 2 ^ 21 +
      b19 * 2 ^ 20 +
      b18 * 2 ^ 19 +
      b17 * 2 ^ 18 +
      b16 * 2 ^ 17 +
      b15 * 2 ^ 16 +
      b13 * 2 ^ 14 +
      b12 * 2 ^ 13 +
      b11 * 2 ^ 12 +
      b10 * 2 ^ 11 +
      b9 * 2 ^ 10 +
      b8 * 2 ^ 9 +
      b7 * 2 ^ 8 +
      b6 * 2 ^ 7 +
      b5 * 2 ^ 6 = 2 * B := by
  omega

set_option maxHeartbeats 4000000 in
theorem tailSum_encode (mt mo ht ho dh dt dn os ov yt yo ds ly ls B : Nat)
    (hmt : mt < 8) (hmo : mo < 16) (hht : ht < 4) (hho : ho < 16) (hdh : dh < 4) (hdt : dt < 16) (hdn : dn < 16) (hos : os < 8) (hov : ov < 16) (hyt : yt < 16) (hyo : yo < 16) (hds : ds < 4) (hly : ly < 2) (hls : ls < 2)
    (hB : B = mt * 2 ^ 60 + mo * 2 ^ 55 + ht * 2 ^ 50 + ho * 2 ^ 45 + dh * 2 ^ 40 + dt * 2 ^ 35 + dn * 2 ^ 30 + os * 2 ^ 25 + ov * 2 ^ 20 + yt * 2 ^ 15 + yo * 2 ^ 10 + ds * 2 ^ 5 + ly * 2 ^ 8 + ls * 2 ^ 7) :
    tailSum B 1 = 2 * B := by
  rw [tailSum_one]
  exact assembleBits (bitAt B 62) (bitAt B 61) (bitAt B 60) (bitAt B 59) (bitAt B 58) (bitAt B 57) (bitAt B 56) (bitAt B 55) (bitAt B 53) (bitAt B 52) (bitAt B 51) (bitAt B 50) (bitAt B 49) (bitAt B 48) (bitAt B 47) (bitAt B 46) (bitAt B 45) (bitAt B 43) (bitAt B 42) (bitAt B 41) (bitAt B 40) (bitAt B 39) (bitAt B 38) (bitAt B 37) (bitAt B 36) (bitAt B 35) (bitAt B 33) (bitAt B 32) (bitAt B 31) (bitAt B 30) (bitAt B 29) (bitAt B 28) (bitAt B 27) (bitAt B 26) (bitAt B 25) (bitAt B 23) (bitAt B 22) (bitAt B 21) (bitAt B 20) (bitAt B 19) (bitAt B 18) (bitAt B 17) (bitAt B 16) (bitAt B 15) (bitAt B 13) (bitAt B 12) (bitAt B 11) (bitAt B 10) (bitAt B 9) (bitAt B 8) (bitAt B 7) (bitAt B 6) (bitAt B 5) mt mo ht ho dh dt dn os ov yt yo ds ly ls B
      (gapBit59 mt mo ht ho dh dt dn os ov yt yo ds ly ls B hmt hmo hht hho hdh hdt hdn hos hov hyt hyo hds hly hls hB)
      (gapBit53 mt mo ht ho dh dt dn os ov yt yo ds ly ls B hmt hmo hht hho hdh hdt hdn hos hov hyt hyo hds hly hls hB)
      (gapBit52 mt mo ht ho dh dt dn os ov yt yo ds ly ls B hmt hmo hht hho hdh hdt hdn hos hov hyt hyo hds hly hls hB)
      (gapBit49 mt mo ht ho dh dt dn os ov yt yo ds ly ls B hmt hmo hht hho hdh hdt hdn hos hov hyt hyo hds hly hls hB)
      (gapBit43 mt mo ht ho dh dt dn os ov yt yo ds ly ls B hmt hmo hht hho hdh hdt hdn hos hov hyt hyo hds hly hls hB)
      (gapBit42 mt mo ht ho dh dt dn os ov yt yo ds ly ls B hmt hmo hht hho hdh hdt hdn hos hov hyt hyo hds hly hls hB)
      (gapBit39 mt mo ht ho dh dt dn os ov yt yo ds ly ls B hmt hmo hht hho hdh hdt hdn hos hov hyt hyo hds hly hls hB)
      (gapBit29 mt mo ht ho dh dt dn os ov yt yo ds ly ls B hmt hmo hht hho hdh hdt hdn hos hov hyt hyo hds hly hls hB)
      (gapBit28 mt mo ht ho dh dt dn os ov yt yo ds ly ls B hmt hmo hht hho hdh hdt hdn hos hov hyt hyo hds hly hls hB)
      (gapBit19 mt mo ht ho dh dt dn os ov yt yo ds ly ls B hmt hmo hht hho hdh hdt hdn hos hov hyt hyo hds hly hls hB)
      (gapBit9 mt mo ht ho dh dt dn os ov yt yo ds ly ls B hmt hmo hht hho hdh hdt hdn hos hov hyt hyo hds hly hls hB)
      (sliceBitsmt mt mo ht ho dh dt dn os ov yt yo ds ly ls B hmt hmo hht hho hdh hdt hdn hos hov hyt hyo hds hly hls hB)
      (sliceBitsmo mt mo ht ho dh dt dn os ov yt yo ds ly ls B hmt hmo hht hho hdh hdt hdn hos hov hyt hyo hds hly hls hB)
      (sliceBitsht mt mo ht ho dh dt dn os ov yt yo ds ly ls B hmt hmo hht hho hdh hdt hdn hos hov hyt hyo hds hly hls hB)
      (sliceBitsho mt mo ht ho dh dt dn os ov yt yo ds ly ls B hmt hmo hht hho hdh hdt hdn hos hov hyt hyo hds hly hls hB)
      (sliceBitsdh mt mo ht ho dh dt dn os ov yt yo ds ly ls B hmt hmo hht hho hdh hdt hdn hos hov hyt hyo hds hly hls hB)
      (sliceBitsdt mt mo ht ho dh dt dn os ov yt yo ds ly ls B hmt hmo hht hho hdh hdt hdn hos hov hyt hyo hds hly hls hB)
      (sliceBitsdn mt mo ht ho dh dt dn os ov yt yo ds ly ls B hmt hmo hht hho hdh hdt hdn hos hov hyt hyo hds hly hls hB)
      (sliceBitsos mt mo ht ho dh dt dn os ov yt yo ds ly ls B hmt hmo hht hho hdh hdt hdn hos hov hyt hyo hds hly hls hB)
      (sliceBitsov mt mo ht ho dh dt dn os ov yt yo ds ly ls B hmt hmo hht hho hdh hdt hdn hos hov hyt hyo hds hly hls hB)
      (sliceBitsyt mt mo ht ho dh dt dn os ov yt yo ds ly ls B hmt hmo hht hho hdh hdt hdn hos hov hyt hyo hds hly hls hB)
      (sliceBitsyo mt mo ht ho dh dt dn os ov yt yo ds ly ls B hmt hmo hht hho hdh hdt hdn hos hov hyt hyo hds hly hls hB)
      (sliceBitsds mt mo ht ho dh dt dn os ov yt yo ds ly ls B hmt hmo hht hho hdh hdt hdn hos hov hyt hyo hds hly hls hB)
      (sliceBitsly mt mo ht ho dh dt dn os ov yt yo ds ly ls B hmt hmo hht hho hdh hdt hdn hos hov hyt hyo hds hly hls hB)
      (sliceBitsls mt mo ht ho dh dt dn os ov yt yo ds ly ls B hmt hmo hht hho hdh hdt hdn hos hov hyt hyo hds hly hls hB)
      hB

set_option maxHeartbeats 4000000 in
theorem decode_tailSum (f : WwvbFrame)
    (hr1 : f.minTen ≤ 5) (hr2 : f.minOne ≤ 9) (hr3 : f.hourTen ≤ 2) (hr4 : f.hourOne ≤ 9)
    (hr5 : f.dayHun ≤ 3) (hr6 : f.dayTen ≤ 9) (hr7 : f.dayOne ≤ 9)
    (hr8 : f.offSign ≤ 7) (hr9 : f.offVal ≤ 9) (hr10 : f.yearTen ≤ 9) (hr11 : f.yearOne ≤ 9)
    (hr12 : f.dst ≤ 3) (hr13 : f.leapsec ≤ 1) (hr14 : f.leapyear ≤ 1) :
    decodeFrame (tailSum (encodeBits f) 1) = f := by
  obtain ⟨mt, mo, ht, ho, dh, dt, dn, os, ov, yt, yo, ds, ls, ly⟩ := f
  simp only at hr1 hr2 hr3 hr4 hr5 hr6 hr7 hr8 hr9 hr10 hr11 hr12 hr13 hr14
  have hB : encodeBits ⟨mt, mo, ht, ho, dh, dt, dn, os, ov, yt, yo, ds, ls, ly⟩ = mt * 2 ^ 60 + mo * 2 ^ 55 + ht * 2 ^ 50 + ho * 2 ^ 45 + dh * 2 ^ 40 + dt * 2 ^ 35 + dn * 2 ^ 30 + os * 2 ^ 25 + ov * 2 ^ 20 + yt * 2 ^ 15 + yo * 2 ^ 10 + ds * 2 ^ 5 + ly * 2 ^ 8 + ls * 2 ^ 7 :=
    encodeBits_eq mt mo ht ho dh dt dn os ov yt yo ds ly ls (by omega) (by omega) (by omega) (by omega) (by omega) (by omega) (by omega) (by omega) (by omega) (by omega) (by omega) (by omega) (by omega) (by omega)
  have h2 : tailSum (encodeBits ⟨mt, mo, ht, ho, dh, dt, dn, os, ov, yt, yo, ds, ls, ly⟩) 1
      = 2 * encodeBits ⟨mt, mo, ht, ho, dh, dt, dn, os, ov, yt, yo, ds, ls, ly⟩ :=
    tailSum_encode mt mo ht ho dh dt dn os ov yt yo ds ly ls (encodeBits ⟨mt, mo, ht, ho, dh, dt, dn, os, ov, yt, yo, ds, ls, ly⟩)
      (by omega) (by omega) (by omega) (by omega) (by omega) (by omega) (by omega) (by omega) (by omega) (by omega) (by omega) (by omega) (by omega) (by omega) hB
  rw [h2, hB]
  simp only [decodeFrame, getField, Nat.shiftRight_eq_div_pow, WwvbFrame.mk.injEq]
  refine ⟨?_, ?_, ?_, ?_, ?_, ?_, ?_, ?_, ?_, ?_, ?_, ?_, ?_, ?_⟩ <;> omega


set_option maxHeartbeats 4000000 in
/-- Running the accumulator from the state reached right after a frame
boundary, over the symbols of positions p..59 of the emitted frame,
lands exactly at the pre-boundary state: previous-was-marker set, six
internal markers counted, position 60, no errors, and the receive
buffer holding every data bit of the frame at receive index 64 - q. -/
theorem runFrame (n : Nat) : ∀ (B p : Nat) (s : ClockState),
    n + p = 60 → 1 ≤ p →
    s.wasMark = decide (p % 10 = 0) →
    s.framePosition = p / 10 →
    s.bitPosition = p →
    s.bitError = 0 →
    2 ^ (65 - p) ∣ s.receiveBuffer →
    ((List.range n).map (fun j => symAt B (p + j))).foldl processBit s =
      { s with wasMark := true, framePosition := 6, bitPosition := 60,
               receiveBuffer := s.receiveBuffer + tailSum B p } := by
  induction n with
  | zero =>
    intro B p s hnp h1 hwm hfp hbp he hdvd
    have hp : p = 60 := by omega
    subst hp
    obtain ⟨wm, fp, bp, be, rx, lfb, errs, idx⟩ := s
    simp only at hwm hfp hbp he
    subst hwm hfp hbp he
    simp [tailSum]
  | succ n ih =>
    intro B p s hnp h1 hwm hfp hbp he hdvd
    have hple : p ≤ 59 := by omega
    obtain ⟨wm, fp, bp, be, rx, lfb, errs, idx⟩ := s
    simp only at hwm hfp hbp he hdvd
    rw [hwm, hfp, hbp, he]
    rw [List.range_succ_eq_map, List.map_cons, List.map_map]
    simp only [List.foldl_cons, Nat.add_zero]
    have hmap : List.map ((fun j => symAt B (p + j)) ∘ Nat.succ) (List.range n)
        = List.map (fun j => symAt B (p + 1 + j)) (List.range n) := by
      apply List.map_congr_left
      intro j hj
      show symAt B (p + (j + 1)) = symAt B (p + 1 + j)
      congr 1
      omega
    rw [hmap]
    by_cases hmk : (p + 1) % 10 = 0
    · have hsym : symAt B p = 800 := by
        simp [symAt, hmk]
      have hwmf : decide (p % 10 = 0) = false := decide_eq_false (by omega)
      rw [hsym, hwmf, processBit_markReg _ 800 (by decide) rfl (by simpa using hple)]
      have hrun := ih B (p + 1)
        ⟨true, p / 10 + 1, p + 1, 0, rx, lfb, errs, idx⟩
        (by omega) (by omega) (by simp [hmk]) (by simp; omega) rfl rfl
        (by simpa using dvd_trans (pow_dvd_pow 2 (by omega : 64 - p ≤ 65 - p)) hdvd)
      simp only at hrun
      rw [hrun]
      have ht : tailSum B p = tailSum B (p + 1) := by
        rw [tailSum, dif_pos hple, if_pos hmk]
        omega
      simp only [ClockState.mk.injEq, true_and, and_true]
      rw [ht]
    · have hsym : symAt B p = 200 + 300 * bitAt B (63 - p) := by
        have hnm : ¬(p = 0 ∨ (p + 1) % 10 = 0) := by
          rintro (h | h) <;> omega
        simp only [symAt]
        rw [if_neg hnm]
      rw [hsym, processBit_data _ (bitAt B (63 - p)) (bitAt_le_one B (63 - p))
        (by simpa using hple)]
      have hlor : rx ||| (bitAt B (63 - p) <<< (64 - p)) =
          rx + bitAt B (63 - p) * 2 ^ (64 - p) := by
        apply lor_bit_add _ _ _ (bitAt_le_one B (63 - p))
        rw [show 64 - p + 1 = 65 - p from by omega]
        exact hdvd
      simp only at hlor ⊢
      rw [hlor]
      have hrun := ih B (p + 1)
        ⟨false, p / 10, p + 1, 0, rx + bitAt B (63 - p) * 2 ^ (64 - p), lfb, errs, idx⟩
        (by omega) (by omega) (by simp [hmk]) (by simp; omega) rfl rfl ?hd
      case hd =>
        rw [show 65 - (p + 1) = 64 - p from by omega]
        exact dvd_add (dvd_trans (pow_dvd_pow 2 (by omega : 64 - p ≤ 65 - p)) hdvd)
          (dvd_mul_left _ _)
      simp only at hrun
      rw [hrun]
      have ht : tailSum B p = bitAt B (63 - p) * 2 ^ (64 - p) + tailSum B (p + 1) := by
        rw [tailSum, dif_pos hple, if_neg hmk]
      simp only [ClockState.mk.injEq, true_and, and_true]
      rw [ht]
      omega


set_option maxHeartbeats 4000000 in
/-- C1 (amended): round-trip holds once the accumulator has its
previous-pulse-was-marker flag set, as it is immediately after the
preceding frame's closing marker.  For every TimeFrame with all
sub-fields in their stated ranges, feeding the 60 encoder symbols of the
frame (Marker at position 0 and at the positions congruent to 9 mod 10,
the layout bit as Zero or One elsewhere) and then the next frame's
leading marker: the frame's own opening marker closes out whatever came
before, positions 1-59 accumulate cleanly (6 internal markers, position
60, no errors), and the trailing marker is an accepted boundary - the
receive buffer replaces the held frame, a success is logged, and the
decoded held TimeFrame equals the encoded one.  (From the cold-start
state, with the flag clear, no decode happens; see the counterexample.) -/
theorem c1_roundtrip_marked (f : WwvbFrame) (s : ClockState)
    (hwm : s.wasMark = true)
    (hr1 : f.minTen ≤ 5) (hr2 : f.minOne ≤ 9) (hr3 : f.hourTen ≤ 2) (hr4 : f.hourOne ≤ 9)
    (hr5 : f.dayHun ≤ 3) (hr6 : f.dayTen ≤ 9) (hr7 : f.dayOne ≤ 9)
    (hr8 : f.offSign ≤ 7) (hr9 : f.offVal ≤ 9) (hr10 : f.yearTen ≤ 9) (hr11 : f.yearOne ≤ 9)
    (hr12 : f.dst ≤ 3) (hr13 : f.leapsec ≤ 1) (hr14 : f.leapyear ≤ 1) :
    ((encodeWidths (encodeBits f)).foldl processBit s).framePosition = 6 ∧
    ((encodeWidths (encodeBits f)).foldl processBit s).bitPosition = 60 ∧
    ((encodeWidths (encodeBits f)).foldl processBit s).bitError = 0 ∧
    ((encodeWidths (encodeBits f)).foldl processBit s).wasMark = true ∧
    ((encodeWidths (encodeBits f) ++ [800]).foldl processBit s).lastFrameBuffer
      = ((encodeWidths (encodeBits f)).foldl processBit s).receiveBuffer ∧
    ((encodeWidths (encodeBits f) ++ [800]).foldl processBit s).errors
      = ((encodeWidths (encodeBits f)).foldl processBit s).errors.set
          ((encodeWidths (encodeBits f)).foldl processBit s).errIdx 0 ∧
    decodeFrame (((encodeWidths (encodeBits f) ++ [800]).foldl processBit s).lastFrameBuffer)
      = f := by
  obtain ⟨wm, fp, bp, be, rx, lfb, errs, idx⟩ := s
  simp only at hwm
  subst hwm
  obtain ⟨L, E, I, hstep1⟩ : ∃ L E I,
      processBit ⟨true, fp, bp, be, rx, lfb, errs, idx⟩ 800 = ⟨false, 0, 1, 0, 0, L, E, I⟩ := by
    rw [processBit_boundary _ 800 (by decide) rfl]
    split_ifs <;> exact ⟨_, _, _, rfl⟩
  have hrun := runFrame 59 (encodeBits f) 1 ⟨false, 0, 1, 0, 0, L, E, I⟩
    (by omega) (by omega) rfl rfl rfl rfl (dvd_zero _)
  simp only at hrun
  have hmid : (encodeWidths (encodeBits f)).foldl processBit ⟨true, fp, bp, be, rx, lfb, errs, idx⟩
      = ⟨true, 6, 60, 0, 0 + tailSum (encodeBits f) 1, L, E, I⟩ := by
    rw [encodeWidths_cons, List.foldl_cons, hstep1]
    exact hrun
  have hfin : (encodeWidths (encodeBits f) ++ [800]).foldl processBit
        ⟨true, fp, bp, be, rx, lfb, errs, idx⟩
      = ⟨false, 0, 1, 0, 0, 0 + tailSum (encodeBits f) 1, E.set I 0,
         if I + 1 ≥ 10 then 0 else I + 1⟩ := by
    rw [List.foldl_append, hmid]
    simp only [List.foldl_cons, List.foldl_nil]
    rw [processBit_boundary _ 800 (by decide) rfl]
    rw [if_pos ⟨rfl, rfl, rfl⟩]
  rw [hmid, hfin]
  refine ⟨rfl, rfl, rfl, rfl, rfl, rfl, ?_⟩
  simp only [Nat.zero_add]
  exact decode_tailSum f hr1 hr2 hr3 hr4 hr5 hr6 hr7 hr8 hr9 hr10 hr11 hr12 hr13 hr14

/-- C1 witness: the amended round-trip at the simulator preset frame
23:57 of day 365, year 10, from a state whose previous pulse was a
marker. -/
theorem c1_roundtrip_marked_witness :
    ((encodeWidths (encodeBits ⟨5, 7, 2, 3, 3, 6, 5, 5, 3, 1, 0, 3, 0, 0⟩)).foldl processBit
        ⟨true, 0, 1, 0, 0, 0, [1,1,1,1,1,1,1,1,1,1], 0⟩).framePosition = 6 ∧
    ((encodeWidths (encodeBits ⟨5, 7, 2, 3, 3, 6, 5, 5, 3, 1, 0, 3, 0, 0⟩)).foldl processBit
        ⟨true, 0, 1, 0, 0, 0, [1,1,1,1,1,1,1,1,1,1], 0⟩).bitPosition = 60 ∧
    ((encodeWidths (encodeBits ⟨5, 7, 2, 3, 3, 6, 5, 5, 3, 1, 0, 3, 0, 0⟩)).foldl processBit
        ⟨true, 0, 1, 0, 0, 0, [1,1,1,1,1,1,1,1,1,1], 0⟩).bitError = 0 ∧
    ((encodeWidths (encodeBits ⟨5, 7, 2, 3, 3, 6, 5, 5, 3, 1, 0, 3, 0, 0⟩)).foldl processBit
        ⟨true, 0, 1, 0, 0, 0, [1,1,1,1,1,1,1,1,1,1], 0⟩).wasMark = true ∧
    ((encodeWidths (encodeBits ⟨5, 7, 2, 3, 3, 6, 5, 5, 3, 1, 0, 3, 0, 0⟩) ++ [800]).foldl
        processBit ⟨true, 0, 1, 0, 0, 0, [1,1,1,1,1,1,1,1,1,1], 0⟩).lastFrameBuffer
      = ((encodeWidths (encodeBits ⟨5, 7, 2, 3, 3, 6, 5, 5, 3, 1, 0, 3, 0, 0⟩)).foldl processBit
        ⟨true, 0, 1, 0, 0, 0, [1,1,1,1,1,1,1,1,1,1], 0⟩).receiveBuffer ∧
    ((encodeWidths (encodeBits ⟨5, 7, 2, 3, 3, 6, 5, 5, 3, 1, 0, 3, 0, 0⟩) ++ [800]).foldl
        processBit ⟨true, 0, 1, 0, 0, 0, [1,1,1,1,1,1,1,1,1,1], 0⟩).errors
      = ((encodeWidths (encodeBits ⟨5, 7, 2, 3, 3, 6, 5, 5, 3, 1, 0, 3, 0, 0⟩)).foldl processBit
          ⟨true, 0, 1, 0, 0, 0, [1,1,1,1,1,1,1,1,1,1], 0⟩).errors.set
          ((encodeWidths (encodeBits ⟨5, 7, 2, 3, 3, 6, 5, 5, 3, 1, 0, 3, 0, 0⟩)).foldl processBit
            ⟨true, 0, 1, 0, 0, 0, [1,1,1,1,1,1,1,1,1,1], 0⟩).errIdx 0 ∧
    decodeFrame (((encodeWidths (encodeBits ⟨5, 7, 2, 3, 3, 6, 5, 5, 3, 1, 0, 3, 0, 0⟩)
          ++ [800]).foldl processBit
          ⟨true, 0, 1, 0, 0, 0, [1,1,1,1,1,1,1,1,1,1], 0⟩).lastFrameBuffer)
      = ⟨5, 7, 2, 3, 3, 6, 5, 5, 3, 1, 0, 3, 0, 0⟩ :=
  c1_roundtrip_marked ⟨5, 7, 2, 3, 3, 6, 5, 5, 3, 1, 0, 3, 0, 0⟩
    ⟨true, 0, 1, 0, 0, 0, [1,1,1,1,1,1,1,1,1,1], 0⟩ rfl
    (by decide) (by decide) (by decide) (by decide) (by decide) (by decide) (by decide)
    (by decide) (by decide) (by decide) (by decide) (by decide) (by decide) (by decide)


set_option maxRecDepth 40000 in
/-- C4 counterexample: boundary validation checks only the marker count,
the position and the error count, never the field ranges, so a frame
whose 53 data positions are all One pulses is accepted - the quality
ring records the success in slot 1 - yet the decoded held frame has
minuteTens = 7, outside its stated range 0-5, and violates the claimed
invariant. -/
theorem c4_counterexample :
    ((800 :: 800 :: (((List.range 59).map
          (fun j => if (j + 2) % 10 = 0 then 800 else 500)) ++ [800])).foldl
        processBit initState).errors = [1, 0, 1, 1, 1, 1, 1, 1, 1, 1] ∧
    (decodeFrame (((800 :: 800 :: (((List.range 59).map
          (fun j => if (j + 2) % 10 = 0 then 800 else 500)) ++ [800])).foldl
        processBit initState).lastFrameBuffer)).minTen = 7 ∧
    ¬ validFrame (decodeFrame (((800 :: 800 :: (((List.range 59).map
          (fun j => if (j + 2) % 10 = 0 then 800 else 500)) ++ [800])).foldl
        processBit initState).lastFrameBuffer)) := by
  decide


end Wwvb
